import Mathlib

/-!
# chat-golang: the chat service, its repositories and its handlers

A shallow embedding of `internal/service/chat.go` (with the parts of the Go
standard library it calls: `strings.TrimSpace`, `len`, `errors.New`), of the
repositories of `internal/repository` over a model of the two tables and of
the gorm statements they issue, and of the handlers of
`internal/handler/chat.go`, with the properties that follow from the code.

Conventions of the embedding

* A Go `string` is its byte sequence (`GoString`); `len` is the number of bytes.
* A Go `error` is a `GoError`; the nil error is `none`.
* A nilable pointer `*T` is an `Option T`.
* The repositories are interfaces: they are modelled as records of
  state-passing functions over an arbitrary store type `σ`, so that a theorem
  quantifies over every implementation (the gorm one, a mock, a recorder).
* `context.Context` is only passed through by the service and is left out.
* A handler maps what it reads of the request, and the store, to the response
  an `httptest.ResponseRecorder` would show, and the store; `encoding/json` is
  a parameter of the handlers.
-/

namespace ChatGolang

/-! ## Go strings and `unicode/utf8` -/

/-- A Go string: an immutable sequence of bytes (not necessarily valid UTF-8). -/
abbrev GoString := List UInt8

/-- The builtin `len` on strings: the number of bytes. -/
def len (s : GoString) : Int := s.length

/-- A Go string literal: the UTF-8 encoding of the source text. -/
def lit (s : String) : GoString := s.data.flatMap String.utf8EncodeChar

/-- The slice expression `s[i:j]`. -/
def slice (s : GoString) (i j : Nat) : GoString := (s.take j).drop i

/-- `utf8.RuneError`, the replacement character U+FFFD. -/
def RuneError : Nat := 0xFFFD

/-- `utf8.RuneSelf`: bytes below it are single-byte runes. -/
def RuneSelf : Nat := 0x80

/-- `utf8.UTFMax`: the longest encoding of a rune, in bytes. -/
def UTFMax : Nat := 4

/-- `utf8.RuneStart`: the byte is not a continuation byte. -/
def RuneStart (b : UInt8) : Bool := b.toNat &&& 0xC0 != 0x80

/-- The table `first` of `unicode/utf8`, reduced to what the decoder reads from
it: `none` for an invalid leading byte (`xx`), otherwise the size of the
encoding and the accepted range of the second byte. ASCII bytes are handled
before the table is consulted. -/
def firstInfo (s0 : Nat) : Option (Nat × Nat × Nat) :=
  if s0 < 0xC2 then none
  else if s0 < 0xE0 then some (2, 0x80, 0xBF)
  else if s0 = 0xE0 then some (3, 0xA0, 0xBF)
  else if s0 < 0xED then some (3, 0x80, 0xBF)
  else if s0 = 0xED then some (3, 0x80, 0x9F)
  else if s0 < 0xF0 then some (3, 0x80, 0xBF)
  else if s0 = 0xF0 then some (4, 0x90, 0xBF)
  else if s0 < 0xF4 then some (4, 0x80, 0xBF)
  else if s0 = 0xF4 then some (4, 0x80, 0x8F)
  else none

/-- The byte `s[i]` as a number (0 past the end; never read there). -/
def byteAt (s : GoString) (i : Nat) : Nat := (s.getD i 0).toNat

/-- `utf8.DecodeRuneInString`: the first rune of `s` and its width in bytes;
`(RuneError, 0)` for the empty string and `(RuneError, 1)` for an invalid
encoding. -/
def DecodeRuneInString (s : GoString) : Nat × Nat :=
  let n := s.length
  if n < 1 then (RuneError, 0)
  else
    let s0 := byteAt s 0
    if s0 < RuneSelf then (s0, 1)
    else
      match firstInfo s0 with
      | none => (RuneError, 1)
      | some (sz, lo, hi) =>
        if n < sz then (RuneError, 1)
        else
          let s1 := byteAt s 1
          if s1 < lo ∨ hi < s1 then (RuneError, 1)
          else if sz ≤ 2 then (((s0 &&& 0x1F) <<< 6) ||| (s1 &&& 0x3F), 2)
          else
            let s2 := byteAt s 2
            if s2 < 0x80 ∨ 0xBF < s2 then (RuneError, 1)
            else if sz ≤ 3 then
              (((s0 &&& 0x0F) <<< 12) ||| ((s1 &&& 0x3F) <<< 6) ||| (s2 &&& 0x3F), 3)
            else
              let s3 := byteAt s 3
              if s3 < 0x80 ∨ 0xBF < s3 then (RuneError, 1)
              else
                (((s0 &&& 0x07) <<< 18) ||| ((s1 &&& 0x3F) <<< 12)
                  ||| ((s2 &&& 0x3F) <<< 6) ||| (s3 &&& 0x3F), 4)

/-- The backward scan of `utf8.DecodeLastRuneInString`
(`for start--; start >= lim; start-- { if RuneStart(s[start]) { break } }`):
`k` positions `lim, .., lim + k - 1` are still to be examined, from the highest
down; the result is the value of `start` when the loop ends. -/
def scanBack (s : GoString) (lim : Nat) : Nat → Int
  | 0 => (lim : Int) - 1
  | k + 1 => if RuneStart (s.getD (lim + k) 0) then ((lim + k : Nat) : Int) else scanBack s lim k

/-- `utf8.DecodeLastRuneInString`: the last rune of `s` and its width. -/
def DecodeLastRuneInString (s : GoString) : Nat × Nat :=
  let stop := s.length
  if stop = 0 then (RuneError, 0)
  else
    let r := byteAt s (stop - 1)
    if r < RuneSelf then (r, 1)
    else
      let lim := stop - UTFMax
      let start := scanBack s lim (stop - 1 - lim)
      let start := if start < 0 then 0 else start.toNat
      let (r, size) := DecodeRuneInString (slice s start stop)
      if start + size ≠ stop then (RuneError, 1) else (r, size)

/-- `unicode.IsSpace`: the Latin-1 spaces and, above Latin-1, the code points
with the Unicode property White_Space. -/
def IsSpace (r : Nat) : Bool :=
  if r ≤ 0xFF then
    r = 0x09 ∨ r = 0x0A ∨ r = 0x0B ∨ r = 0x0C ∨ r = 0x0D ∨ r = 0x20 ∨ r = 0x85 ∨ r = 0xA0
  else
    r = 0x1680 ∨ (0x2000 ≤ r ∧ r ≤ 0x200A) ∨ r = 0x2028 ∨ r = 0x2029 ∨ r = 0x202F
      ∨ r = 0x205F ∨ r = 0x3000

/-- The table `asciiSpace` of package `strings`. -/
def asciiSpace (c : Nat) : Bool :=
  c = 0x09 ∨ c = 0x0A ∨ c = 0x0B ∨ c = 0x0C ∨ c = 0x0D ∨ c = 0x20

/-! ## Package `strings` -/

/-- The loop of `strings.indexFunc` (`for i, r := range s`): `i` is the index
of the first byte of `s` in the whole string, `skip` the number of bytes of the
current rune still to be stepped over. Returns the index of the first rune `r`
with `f r = truth`, or `-1`. -/
def indexFuncLoop (f : Nat → Bool) (truth : Bool) : GoString → Nat → Nat → Int
  | [], _, _ => -1
  | _ :: rest, i, skip + 1 => indexFuncLoop f truth rest (i + 1) skip
  | c :: rest, i, 0 =>
    let (r, w) := DecodeRuneInString (c :: rest)
    if f r = truth then (i : Int) else indexFuncLoop f truth rest (i + 1) (w - 1)

/-- `strings.indexFunc`. -/
def indexFunc (s : GoString) (f : Nat → Bool) (truth : Bool) : Int :=
  indexFuncLoop f truth s 0 0

/-- The loop of `strings.lastIndexFunc`
(`for i := len(s); i > 0; { r, size := DecodeLastRuneInString(s[0:i]); i -= size; .. }`):
the first argument is `i`, `skip` the number of bytes of the rune just decoded
still to be stepped back over. -/
def lastIndexFuncLoop (s : GoString) (f : Nat → Bool) (truth : Bool) : Nat → Nat → Int
  | 0, _ => -1
  | i + 1, skip + 1 => lastIndexFuncLoop s f truth i skip
  | i + 1, 0 =>
    let (r, size) := DecodeLastRuneInString (slice s 0 (i + 1))
    if f r = truth then ((i + 1 - size : Nat) : Int) else lastIndexFuncLoop s f truth i (size - 1)

/-- `strings.lastIndexFunc`. -/
def lastIndexFunc (s : GoString) (f : Nat → Bool) (truth : Bool) : Int :=
  lastIndexFuncLoop s f truth s.length 0

/-- `strings.TrimLeftFunc`. -/
def TrimLeftFunc (s : GoString) (f : Nat → Bool) : GoString :=
  let i := indexFunc s f false
  if i = -1 then [] else slice s i.toNat s.length

/-- `strings.TrimRightFunc`. -/
def TrimRightFunc (s : GoString) (f : Nat → Bool) : GoString :=
  let i := lastIndexFunc s f false
  let i :=
    if 0 ≤ i ∧ RuneSelf ≤ byteAt s i.toNat then
      i + ((DecodeRuneInString (slice s i.toNat s.length)).2 : Int)
    else i + 1
  slice s 0 i.toNat

/-- `strings.TrimFunc`. -/
def TrimFunc (s : GoString) (f : Nat → Bool) : GoString :=
  TrimRightFunc (TrimLeftFunc s f) f

/-- The second loop of `strings.TrimSpace`, on `s[start:stop]`: steps `stop`
down over ASCII spaces and hands over to `TrimRightFunc` at a non-ASCII byte. -/
def trimSpaceStop (s : GoString) : Nat → GoString
  | 0 => []
  | stop + 1 =>
    let c := byteAt s stop
    if RuneSelf ≤ c then TrimRightFunc (slice s 0 (stop + 1)) IsSpace
    else if asciiSpace c then trimSpaceStop s stop
    else slice s 0 (stop + 1)

/-- `strings.TrimSpace`: `s` without its leading and trailing white space, as
Unicode defines it. The first loop steps over leading ASCII spaces and hands
over to `TrimFunc` at a non-ASCII byte. -/
def TrimSpace : GoString → GoString
  | [] => []
  | c :: rest =>
    if RuneSelf ≤ c.toNat then TrimFunc (c :: rest) IsSpace
    else if asciiSpace c.toNat then TrimSpace rest
    else trimSpaceStop (c :: rest) (c :: rest).length

/-- `utf8.RuneCountInString`: the number of runes of `s`, an invalid byte
counting as one rune of width 1 (the count of iterations of `for range s`).
The argument `skip` is the number of bytes of the current rune still to be
stepped over. -/
def runeCountLoop : GoString → Nat → Nat
  | [], _ => 0
  | _ :: rest, skip + 1 => runeCountLoop rest skip
  | c :: rest, 0 => 1 + runeCountLoop rest ((DecodeRuneInString (c :: rest)).2 - 1)

/-- `utf8.RuneCountInString`. -/
def RuneCountInString (s : GoString) : Nat := runeCountLoop s 0

/-! ## Errors -/

/-- A Go `error` value (the nil error is `none : Option GoError`). The address
of the value is not modelled: an error is its dynamic type and its message. -/
inductive GoError where
  /-- A value of type `*errors.errorString`, as built by `errors.New`. -/
  | errorString (s : GoString)
  /-- An error of any other dynamic type (gorm, the database driver, a mock),
  `typ` standing for the type and the rest of the value. -/
  | foreign (typ : Nat) (s : GoString)
  deriving DecidableEq, Repr

/-- The method `Error()`. -/
def GoError.Error : GoError → GoString
  | .errorString s => s
  | .foreign _ s => s

/-- `errors.New`. -/
def errors.New (text : GoString) : GoError := GoError.errorString text

/-- `repository.ErrChatNotFound` (internal/repository/chat.go). -/
def ErrChatNotFound : GoError := errors.New (lit "chat not found")

/-! ## Package `models` -/

/-- Modelled from the spec: `models.Chat`. Package `models` is not among the
sources; the fields are the ones the service, the repositories and their tests
read and write (`ID int64`, `Title string`, `CreatedAt time.Time`, the time as
a number, 0 for the zero time). -/
structure Chat where
  ID : Int
  Title : GoString
  CreatedAt : Int
  deriving DecidableEq, Repr

/-- Modelled from the spec: `models.Message` (`ID int64`, `ChatID int64`,
`Text string`, `CreatedAt time.Time`); see `Chat`. -/
structure Message where
  ID : Int
  ChatID : Int
  Text : GoString
  CreatedAt : Int
  deriving DecidableEq, Repr

/-- Modelled from the spec: `models.ChatWithMessages`, a chat (by value) with
a slice of its messages; see `Chat`. -/
structure ChatWithMessages where
  Chat : Chat
  Messages : List Message
  deriving DecidableEq, Repr

/-! ## The repository interfaces

A method with a pointer parameter (`Create`) returns the value the pointer
refers to after the call, so that what the implementation writes through the
pointer (the id, the creation time) is visible to the caller. -/

/-- The interface `repository.ChatRepository`, over a store of type `σ`. -/
structure ChatRepository (σ : Type) where
  Create : Chat → σ → (Chat × Option GoError) × σ
  Delete : Int → σ → Option GoError × σ
  Exists : Int → σ → (Bool × Option GoError) × σ
  GetByID : Int → σ → (Option Chat × Option GoError) × σ

/-- The interface `repository.MessageRepository`, over a store of type `σ`. -/
structure MessageRepository (σ : Type) where
  Create : Message → σ → (Message × Option GoError) × σ
  GetByChatID : Int → Int → σ → (List Message × Option GoError) × σ

/-! ## The service (internal/service/chat.go) -/

/-- The struct `service.ChatService`. -/
structure ChatService (σ : Type) where
  chatRepo : ChatRepository σ
  messageRepo : MessageRepository σ

/-- `NewChatService`. -/
def NewChatService {σ : Type} (chatRepo : ChatRepository σ)
    (messageRepo : MessageRepository σ) : ChatService σ :=
  { chatRepo := chatRepo, messageRepo := messageRepo }

/-- `(*ChatService).CreateChat`. -/
def ChatService.CreateChat {σ : Type} (s : ChatService σ) (title : GoString) (st : σ) :
    (Option Chat × Option GoError) × σ :=
  let title := TrimSpace title
  if title = lit "" then
    ((none, some (errors.New (lit "title cannot be empty"))), st)
  else if len title > 200 then
    ((none, some (errors.New (lit "title must be 1-200 characters"))), st)
  else
    let chat : Chat := { ID := 0, Title := title, CreatedAt := 0 }
    match s.chatRepo.Create chat st with
    | ((_, some err), st1) => ((none, some err), st1)
    | ((chat, none), st1) => ((some chat, none), st1)

/-- `(*ChatService).GetChatWithMessages`. -/
def ChatService.GetChatWithMessages {σ : Type} (s : ChatService σ) (chatID : Int)
    (limit : Int) (st : σ) : (Option ChatWithMessages × Option GoError) × σ :=
  let limit := if limit ≤ 0 then 20 else limit
  let limit := if limit > 100 then 100 else limit
  match s.chatRepo.GetByID chatID st with
  | ((_, some err), st1) => ((none, some err), st1)
  | ((none, none), st1) => ((none, some (errors.New (lit "chat not found"))), st1)
  | ((some chat, none), st1) =>
    match s.messageRepo.GetByChatID chatID limit st1 with
    | ((_, some err), st2) => ((none, some err), st2)
    | ((messages, none), st2) => ((some { Chat := chat, Messages := messages }, none), st2)

/-- `(*ChatService).DeleteChat`. -/
def ChatService.DeleteChat {σ : Type} (s : ChatService σ) (chatID : Int) (st : σ) :
    Option GoError × σ :=
  s.chatRepo.Delete chatID st

/-- `(*ChatService).CreateMessage`. -/
def ChatService.CreateMessage {σ : Type} (s : ChatService σ) (chatID : Int)
    (text : GoString) (st : σ) : (Option Message × Option GoError) × σ :=
  match s.chatRepo.Exists chatID st with
  | ((_, some err), st1) => ((none, some err), st1)
  | ((false, none), st1) => ((none, some (errors.New (lit "chat not found"))), st1)
  | ((true, none), st1) =>
    let text := TrimSpace text
    if text = lit "" then
      ((none, some (errors.New (lit "text cannot be empty"))), st1)
    else if len text > 5000 then
      ((none, some (errors.New (lit "text must be 1-5000 characters"))), st1)
    else
      let message : Message := { ID := 0, ChatID := chatID, Text := text, CreatedAt := 0 }
      match s.messageRepo.Create message st1 with
      | ((_, some err), st2) => ((none, some err), st2)
      | ((message, none), st2) => ((some message, none), st2)

/-! ## Observing the repository calls

What gomock does in the tests: every call of a repository method is recorded
with its arguments before it is forwarded to the implementation. -/

/-- A call of a repository method, with its arguments. -/
inductive Call where
  | chatCreate (chat : Chat)
  | chatDelete (id : Int)
  | chatExists (id : Int)
  | chatGetByID (id : Int)
  | messageCreate (message : Message)
  | messageGetByChatID (chatID : Int) (limit : Int)
  deriving DecidableEq, Repr

/-- A chat repository that appends each call to a log and forwards it. -/
def ChatRepository.traced {σ : Type} (r : ChatRepository σ) :
    ChatRepository (σ × List Call) where
  Create chat st := ((r.Create chat st.1).1, ((r.Create chat st.1).2, st.2 ++ [Call.chatCreate chat]))
  Delete id st := ((r.Delete id st.1).1, ((r.Delete id st.1).2, st.2 ++ [Call.chatDelete id]))
  Exists id st := ((r.Exists id st.1).1, ((r.Exists id st.1).2, st.2 ++ [Call.chatExists id]))
  GetByID id st := ((r.GetByID id st.1).1, ((r.GetByID id st.1).2, st.2 ++ [Call.chatGetByID id]))

/-- A message repository that appends each call to a log and forwards it. -/
def MessageRepository.traced {σ : Type} (r : MessageRepository σ) :
    MessageRepository (σ × List Call) where
  Create message st :=
    ((r.Create message st.1).1, ((r.Create message st.1).2, st.2 ++ [Call.messageCreate message]))
  GetByChatID chatID limit st :=
    ((r.GetByChatID chatID limit st.1).1,
      ((r.GetByChatID chatID limit st.1).2, st.2 ++ [Call.messageGetByChatID chatID limit]))

/-- The service over the recording repositories. -/
def ChatService.traced {σ : Type} (s : ChatService σ) : ChatService (σ × List Call) :=
  NewChatService s.chatRepo.traced s.messageRepo.traced

/-! ## Test doubles (internal/service/chat_test.go)

The mocks of the tests return canned values; `Create` assigns the id 1 and a
creation time, as the `DoAndReturn` functions of the tests do. The store is
the number of calls received. -/

/-- The time `time.Now()` of the test doubles. -/
def mockNow : Int := 1700000000

/-- A `MockChatRepository` with canned results. -/
def mockChatRepo (create : Option GoError) (delete : Option GoError)
    (found : Bool × Option GoError) (getByID : Option Chat × Option GoError) :
    ChatRepository Nat where
  Create chat n := (({ chat with ID := 1, CreatedAt := mockNow }, create), n + 1)
  Delete _ n := (delete, n + 1)
  Exists _ n := (found, n + 1)
  GetByID _ n := (getByID, n + 1)

/-- A `MockMessageRepository` with canned results. -/
def mockMessageRepo (create : Option GoError) (getByChatID : List Message × Option GoError) :
    MessageRepository Nat where
  Create message n := (({ message with ID := 1, CreatedAt := mockNow }, create), n + 1)
  GetByChatID _ _ n := (getByChatID, n + 1)

/-- The service of the tests: mocks whose calls all succeed, the chat present. -/
def okService : ChatService Nat :=
  NewChatService
    (mockChatRepo none none (true, none)
      (some { ID := 1, Title := lit "Тест", CreatedAt := mockNow }, none))
    (mockMessageRepo none
      ([{ ID := 1, ChatID := 1, Text := lit "Привет", CreatedAt := mockNow }], none))

/-- The chat that `CreateChat` builds from a validated title. -/
def newChat (title : GoString) : Chat := { ID := 0, Title := title, CreatedAt := 0 }

/-- The message that `CreateMessage` builds from a validated text. -/
def newMessage (chatID : Int) (text : GoString) : Message :=
  { ID := 0, ChatID := chatID, Text := text, CreatedAt := 0 }

/-- The value of `limit` after the two `if` statements that open
`GetChatWithMessages`. -/
def normLimit (limit : Int) : Int :=
  let limit := if limit ≤ 0 then 20 else limit
  if limit > 100 then 100 else limit

/-- The service of the tests for a chat that does not exist: `Exists` returns
`(false, nil)`, `GetByID` returns `(nil, nil)` and `Delete` fails. -/
def absentService : ChatService Nat :=
  NewChatService
    (mockChatRepo none (some (errors.New (lit "chat not found"))) (false, none) (none, none))
    (mockMessageRepo none ([], none))

/-- Every rune of `s`, as `for _, r := range s` yields them, is white space
(`strings.indexFunc` finds no rune that is not); so is the empty string. -/
def whitespaceOnly (s : GoString) : Prop := indexFunc s IsSpace false = -1

instance (s : GoString) : Decidable (whitespaceOnly s) := by
  unfold whitespaceOnly; infer_instance

/-- The string `string(make([]byte, n))` of the tests: `n` zero bytes. -/
def zeroBytes (n : Nat) : GoString := List.replicate n 0

/-- A title of 150 Cyrillic letters: 150 code points, 300 bytes. -/
def cyrillic150 : GoString := (List.replicate 150 (lit "Я")).flatten

/-- A title of 10 letters followed by 200 spaces: 210 bytes. -/
def lettersThenSpaces : GoString := List.replicate 10 0x41 ++ List.replicate 200 0x20

/-- A storage error, of a dynamic type other than `*errors.errorString`. -/
def storageError : GoError := GoError.foreign 1 (lit "connection refused")

/-- A service whose chat repository fails on every call with `storageError`. -/
def brokenChatService : ChatService Nat :=
  NewChatService
    (mockChatRepo (some storageError) (some storageError) (false, some storageError)
      (none, some storageError))
    (mockMessageRepo none ([], none))

/-- A service whose chat repository works and finds the chat, and whose
message repository fails on every call with `storageError`. -/
def brokenMessageService : ChatService Nat :=
  NewChatService
    (mockChatRepo none none (true, none)
      (some { ID := 1, Title := lit "Тест", CreatedAt := mockNow }, none))
    (mockMessageRepo (some storageError) ([], some storageError))

/-! ## The store and gorm (internal/repository)

The repositories run their statements through `*gorm.DB`. The store behind it
is a pair of tables; a statement either fails with the failure the store is in
(a lost connection, say) and changes nothing, or runs on the tables. -/

/-- Modelled from the spec: the storage adapter, "a relational table pair
(chats, messages)", whose schema is declared in package `models`, which is not
among the sources. The rows are kept in insertion order; `chatSeq` and
`messageSeq` are the last values of the id sequences, `clock` is the current
time, and `failure` is the error every statement fails with while the store is
unreachable. -/
structure DB where
  chats : List Chat
  messages : List Message
  chatSeq : Int
  messageSeq : Int
  clock : Int
  failure : Option GoError
  deriving DecidableEq, Repr

/-- The store of `setupTestDB`: empty tables, reachable. -/
def emptyDB : DB :=
  { chats := [], messages := [], chatSeq := 0, messageSeq := 0, clock := mockNow,
    failure := none }

/-- The fields of `*gorm.DB` a repository reads after a statement. -/
structure Result where
  Error : Option GoError
  RowsAffected : Int
  deriving DecidableEq, Repr

/-- `gorm.ErrRecordNotFound`. -/
def ErrRecordNotFound : GoError := errors.New (lit "record not found")

/-- `gorm.ErrDuplicatedKey`: the primary key of the new row is taken. -/
def ErrDuplicatedKey : GoError := errors.New (lit "duplicated key not allowed")

/-- `gorm.ErrForeignKeyViolated`: the row refers to a chat that is not there. -/
def ErrForeignKeyViolated : GoError := errors.New (lit "violates foreign key constraint")

/-- `errors.Is` on error values that wrap nothing: the error is the target. -/
def errors.Is (err : Option GoError) (target : GoError) : Bool := err = some target

/-- `db.Create(chat)` for a `*models.Chat`: INSERT INTO chats. A zero id is
taken from the sequence and a zero creation time is set to the current time;
both are written back through the pointer. -/
def gormCreateChat (chat : Chat) (db : DB) : (Chat × Result) × DB :=
  match db.failure with
  | some e => ((chat, { Error := some e, RowsAffected := 0 }), db)
  | none =>
    let id := if chat.ID = 0 then db.chatSeq + 1 else chat.ID
    let seq := if chat.ID = 0 then db.chatSeq + 1 else db.chatSeq
    if db.chats.any (fun c => c.ID = id) then
      ((chat, { Error := some ErrDuplicatedKey, RowsAffected := 0 }), { db with chatSeq := seq })
    else
      let row : Chat :=
        { ID := id, Title := chat.Title,
          CreatedAt := if chat.CreatedAt = 0 then db.clock else chat.CreatedAt }
      ((row, { Error := none, RowsAffected := 1 }),
        { db with chats := db.chats ++ [row], chatSeq := seq, clock := db.clock + 1 })

/-- Modelled from the spec: `db.Create(message)` for a `*models.Message`:
INSERT INTO messages, as `gormCreateChat`. The foreign key from `chat_id` to
the chats table is declared in package `models`, which is not among the
sources; by it "a Message cannot exist referencing a non-existent Chat", so
the insertion fails when no chat has the id `ChatID`. -/
def gormCreateMessage (message : Message) (db : DB) : (Message × Result) × DB :=
  match db.failure with
  | some e => ((message, { Error := some e, RowsAffected := 0 }), db)
  | none =>
    let id := if message.ID = 0 then db.messageSeq + 1 else message.ID
    let seq := if message.ID = 0 then db.messageSeq + 1 else db.messageSeq
    if db.messages.any (fun m => m.ID = id) then
      ((message, { Error := some ErrDuplicatedKey, RowsAffected := 0 }),
        { db with messageSeq := seq })
    else if ¬ db.chats.any (fun c => c.ID = message.ChatID) then
      ((message, { Error := some ErrForeignKeyViolated, RowsAffected := 0 }),
        { db with messageSeq := seq })
    else
      let row : Message :=
        { ID := id, ChatID := message.ChatID, Text := message.Text,
          CreatedAt := if message.CreatedAt = 0 then db.clock else message.CreatedAt }
      ((row, { Error := none, RowsAffected := 1 }),
        { db with messages := db.messages ++ [row], messageSeq := seq, clock := db.clock + 1 })

/-- Modelled from the spec: `db.Delete(&models.Chat{}, id)`: DELETE FROM chats
WHERE id = ?. The foreign key of the messages table is declared (in package
`models`, not among the sources) with ON DELETE CASCADE: "when a Chat is
deleted, all its Messages are deleted as well (cascade), atomically", so the
messages of the deleted rows go with them. -/
def gormDeleteChat (id : Int) (db : DB) : Result × DB :=
  match db.failure with
  | some e => ({ Error := some e, RowsAffected := 0 }, db)
  | none =>
    let deleted := db.chats.filter (fun c => c.ID = id)
    ({ Error := none, RowsAffected := deleted.length },
      { db with
        chats := db.chats.filter (fun c => ¬ c.ID = id),
        messages := db.messages.filter (fun m => ¬ deleted.any (fun c => c.ID = m.ChatID)) })

/-- `db.First(&chat, id)`: SELECT * FROM chats WHERE id = ? ORDER BY id LIMIT 1,
with `gorm.ErrRecordNotFound` when there is no row. The chat returned with an
error is the zero value `chat` was declared with. -/
def gormFirstChat (id : Int) (db : DB) : (Chat × Result) × DB :=
  match db.failure with
  | some e => (({ ID := 0, Title := lit "", CreatedAt := 0 }, { Error := some e, RowsAffected := 0 }), db)
  | none =>
    match db.chats.find? (fun c => c.ID = id) with
    | some c => ((c, { Error := none, RowsAffected := 1 }), db)
    | none =>
      (({ ID := 0, Title := lit "", CreatedAt := 0 },
        { Error := some ErrRecordNotFound, RowsAffected := 0 }), db)

/-- `db.Model(&models.Chat{}).Where("id = ?", id).Count(&count)`:
SELECT count(*) FROM chats WHERE id = ?; `count` stays 0 on an error. -/
def gormCountChats (id : Int) (db : DB) : (Int × Result) × DB :=
  match db.failure with
  | some e => ((0, { Error := some e, RowsAffected := 0 }), db)
  | none => (((db.chats.filter (fun c => c.ID = id)).length, { Error := none, RowsAffected := 1 }), db)

/-- The order of `Order("created_at DESC")`: `a` may come before `b`. -/
def newerOrSame (a b : Message) : Prop := b.CreatedAt ≤ a.CreatedAt

instance : DecidableRel newerOrSame := fun a b => by
  unfold newerOrSame; infer_instance

/-- The clause `Limit(limit)`: LIMIT n for `n ≥ 0`, no clause for a negative
number. (What gorm does with a limit below 1 has changed between its versions;
the service passes a limit from 1 to 100.) -/
def gormLimit (limit : Int) (rows : List Message) : List Message :=
  if 0 ≤ limit then rows.take limit.toNat else rows

/-- `db.Where("chat_id = ?", chatID).Order("created_at DESC").Limit(limit).Find(&messages)`:
SELECT * FROM messages WHERE chat_id = ? ORDER BY created_at DESC LIMIT ?.
SQL leaves the order of rows with equal `created_at` open; here they stay in
insertion order. -/
def gormFindMessages (chatID : Int) (limit : Int) (db : DB) : (List Message × Result) × DB :=
  match db.failure with
  | some e => (([], { Error := some e, RowsAffected := 0 }), db)
  | none =>
    let rows := gormLimit limit
      ((db.messages.filter (fun m => m.ChatID = chatID)).insertionSort newerOrSame)
    ((rows, { Error := none, RowsAffected := rows.length }), db)

/-! ## The repositories (internal/repository/chat.go, message.go) -/

/-- `(*chatRepository).Create`. -/
def chatRepository.Create (chat : Chat) (db : DB) : (Chat × Option GoError) × DB :=
  let ((chat, result), db1) := gormCreateChat chat db
  ((chat, result.Error), db1)

/-- `(*chatRepository).Delete`. -/
def chatRepository.Delete (id : Int) (db : DB) : Option GoError × DB :=
  let (result, db1) := gormDeleteChat id db
  if result.Error ≠ none then (result.Error, db1)
  else if result.RowsAffected = 0 then (some ErrChatNotFound, db1)
  else (none, db1)

/-- `(*chatRepository).GetByID`. -/
def chatRepository.GetByID (id : Int) (db : DB) : (Option Chat × Option GoError) × DB :=
  let ((chat, result), db1) := gormFirstChat id db
  let err := result.Error
  if errors.Is err ErrRecordNotFound then ((none, none), db1)
  else if err ≠ none then ((none, err), db1)
  else ((some chat, none), db1)

/-- `(*chatRepository).Exists`. -/
def chatRepository.Exists (id : Int) (db : DB) : (Bool × Option GoError) × DB :=
  let ((count, result), db1) := gormCountChats id db
  ((decide (count > 0), result.Error), db1)

/-- `NewChatRepository`. -/
def NewChatRepository : ChatRepository DB :=
  { Create := chatRepository.Create, Delete := chatRepository.Delete,
    Exists := chatRepository.Exists, GetByID := chatRepository.GetByID }

/-- `(*messageRepository).Create`. -/
def messageRepository.Create (message : Message) (db : DB) : (Message × Option GoError) × DB :=
  let ((message, result), db1) := gormCreateMessage message db
  ((message, result.Error), db1)

/-- `(*messageRepository).GetByChatID`. -/
def messageRepository.GetByChatID (chatID : Int) (limit : Int) (db : DB) :
    (List Message × Option GoError) × DB :=
  let ((messages, result), db1) := gormFindMessages chatID limit db
  ((messages, result.Error), db1)

/-- `NewMessageRepository`. -/
def NewMessageRepository : MessageRepository DB :=
  { Create := messageRepository.Create, GetByChatID := messageRepository.GetByChatID }

/-- The service of `main`: both repositories over the same store. -/
def dbService : ChatService DB := NewChatService NewChatRepository NewMessageRepository

/-- No message refers to a chat that is not in the chats table. -/
def DB.referencesValid (db : DB) : Prop :=
  ∀ m ∈ db.messages, ∃ c ∈ db.chats, c.ID = m.ChatID

/-! ## Fixtures of the repository tests (internal/repository/*_test.go) -/

/-- The chat the repository tests create. -/
def testChat : Chat := { ID := 0, Title := lit "Test Chat", CreatedAt := mockNow }

/-- The store after `chatRepo.Create(ctx, chat)` on the empty store. -/
def dbWithChat : DB := (NewChatRepository.Create testChat emptyDB).2

/-- The loop `for i := range messages { msgRepo.Create(ctx, &messages[i]) }`. -/
def createAll (messages : List Message) (db : DB) : DB :=
  messages.foldl (fun d m => (NewMessageRepository.Create m d).2) db

/-- The messages of `TestMessageRepository_GetByChatID`, one second apart. -/
def threeMessages : List Message :=
  [ { ID := 0, ChatID := 1, Text := lit "Message 1", CreatedAt := mockNow },
    { ID := 0, ChatID := 1, Text := lit "Message 2", CreatedAt := mockNow + 1 },
    { ID := 0, ChatID := 1, Text := lit "Message 3", CreatedAt := mockNow + 2 } ]

/-- The store of `TestMessageRepository_GetByChatID`. -/
def dbWithThree : DB := createAll threeMessages dbWithChat

/-- The messages of `TestMessageRepository_GetByChatID_WithLimit`. -/
def fiveMessages : List Message :=
  (List.range 5).map fun i =>
    { ID := 0, ChatID := 1, Text := lit "Message", CreatedAt := mockNow + (i + 1 : Nat) }

/-- The store of `TestMessageRepository_GetByChatID_WithLimit`. -/
def dbWithFive : DB := createAll fiveMessages dbWithChat

/-- A second chat with a message of its own, next to the three messages of
chat 1. -/
def dbTwoChats : DB :=
  createAll [{ ID := 0, ChatID := 2, Text := lit "Other", CreatedAt := mockNow + 3 }]
    (NewChatRepository.Create { ID := 0, Title := lit "Other Chat", CreatedAt := mockNow }
      dbWithThree).2

/-! ## Package `strconv` -/

/-- The digits of an unsigned decimal number, most significant first, added to
`acc`; `none` at a byte that is not a digit. -/
def parseDigits : GoString → Nat → Option Nat
  | [], acc => some acc
  | c :: rest, acc =>
    if 0x30 ≤ c.toNat ∧ c.toNat ≤ 0x39 then parseDigits rest (acc * 10 + (c.toNat - 0x30))
    else none

/-- `strconv.ParseUint(s, 10, 64)`: `none` when it fails for the form of `s`
(empty, or a byte that is not a digit); a number too large for 64 bits comes
back as the largest one, as it does together with the range error. -/
def ParseUint (s : GoString) : Option Nat :=
  if s = lit "" then none
  else
    match parseDigits s 0 with
    | none => none
    | some n => some (min n (2 ^ 64 - 1))

/-- `strconv.ParseInt(s, 10, 64)`: the number, or `none` when the error is not
nil. The handlers only test the error against nil, so its value is left out. -/
def ParseInt (s : GoString) : Option Int :=
  if s = lit "" then none
  else
    let neg := s.head? = some 0x2D
    let s1 := if s.head? = some 0x2B ∨ s.head? = some 0x2D then s.tail else s
    match ParseUint s1 with
    | none => none
    | some un =>
      let cutoff : Nat := 2 ^ 63
      if ¬ neg ∧ un ≥ cutoff then none
      else if neg ∧ un > cutoff then none
      else some (if neg then -(un : Int) else (un : Int))

/-- `strconv.Atoi` where `int` has 64 bits: `ParseInt(s, 10, 0)`. -/
def Atoi (s : GoString) : Option Int := ParseInt s

/-! ## The handlers (internal/handler/chat.go) -/

/-- The interface `service.ChatServiceInterface`, over a store of type `σ`. -/
structure ChatServiceInterface (σ : Type) where
  CreateChat : GoString → σ → (Option Chat × Option GoError) × σ
  GetChatWithMessages : Int → Int → σ → (Option ChatWithMessages × Option GoError) × σ
  DeleteChat : Int → σ → Option GoError × σ
  CreateMessage : Int → GoString → σ → (Option Message × Option GoError) × σ

/-- The type `*ChatService` implements `ChatServiceInterface`. -/
def ChatService.toInterface {σ : Type} (s : ChatService σ) : ChatServiceInterface σ :=
  { CreateChat := s.CreateChat, GetChatWithMessages := s.GetChatWithMessages,
    DeleteChat := s.DeleteChat, CreateMessage := s.CreateMessage }

/-- The struct `handler.ChatHandler`. -/
structure ChatHandler (σ : Type) where
  service : ChatServiceInterface σ

/-- `NewChatHandler`. -/
def NewChatHandler {σ : Type} (service : ChatServiceInterface σ) : ChatHandler σ :=
  { service := service }

/-- What a handler reads of the `*http.Request`: the path variable
`mux.Vars(r)["id"]`, the query parameter `r.URL.Query().Get("limit")` and the
bytes of `r.Body`. -/
structure Request where
  id : GoString
  limit : GoString
  body : GoString
  deriving DecidableEq, Repr

/-- What a handler leaves in the `http.ResponseWriter`, as an
`httptest.ResponseRecorder` shows it: the status code, the headers set and the
bytes written. -/
structure Response where
  Code : Int
  Header : List (GoString × GoString)
  Body : GoString
  deriving DecidableEq, Repr

/-- `http.StatusOK`. -/
def StatusOK : Int := 200

/-- `http.StatusCreated`. -/
def StatusCreated : Int := 201

/-- `http.StatusNoContent`. -/
def StatusNoContent : Int := 204

/-- `http.StatusBadRequest`. -/
def StatusBadRequest : Int := 400

/-- `http.StatusNotFound`. -/
def StatusNotFound : Int := 404

/-- `http.Error(w, error, code)`: a plain-text response made of the message
and a newline. -/
def httpError (error : GoString) (code : Int) : Response :=
  { Code := code,
    Header := [(lit "Content-Type", lit "text/plain; charset=utf-8"),
               (lit "X-Content-Type-Options", lit "nosniff")],
    Body := error ++ lit "\n" }

/-- Package `encoding/json` as the handlers use it, taken as a parameter.
`DecodeTitle body` is `json.NewDecoder(r.Body).Decode(&req)` for the request
struct with the field `Title` (`json:"title"`): `none` when `Decode` returns an
error, otherwise `req.Title`; `DecodeText` likewise for the field `Text`. The
functions `Encode..` give the bytes `json.NewEncoder(w).Encode(v)` writes for
the (possibly nil) value `v`. -/
structure JSON where
  DecodeTitle : GoString → Option GoString
  DecodeText : GoString → Option GoString
  EncodeChat : Option Chat → GoString
  EncodeChatWithMessages : Option ChatWithMessages → GoString
  EncodeMessage : Option Message → GoString

/-- The response the handlers build for a JSON value: the header
`Content-Type: application/json`, the status and the encoded value. -/
def jsonResponse (code : Int) (body : GoString) : Response :=
  { Code := code, Header := [(lit "Content-Type", lit "application/json")], Body := body }

/-- `(*ChatHandler).CreateChat`. -/
def ChatHandler.CreateChat {σ : Type} (h : ChatHandler σ) (json : JSON) (r : Request)
    (st : σ) : Response × σ :=
  match json.DecodeTitle r.body with
  | none => (httpError (lit "Invalid JSON") StatusBadRequest, st)
  | some title =>
    match h.service.CreateChat title st with
    | ((_, some err), st1) => (httpError err.Error StatusBadRequest, st1)
    | ((chat, none), st1) => (jsonResponse StatusCreated (json.EncodeChat chat), st1)

/-- `(*ChatHandler).GetChat`. The status of the success response is the 200
that the first write sets. -/
def ChatHandler.GetChat {σ : Type} (h : ChatHandler σ) (json : JSON) (r : Request)
    (st : σ) : Response × σ :=
  match ParseInt r.id with
  | none => (httpError (lit "Invalid chat ID") StatusBadRequest, st)
  | some id =>
    let limitStr := r.limit
    let limit : Int := 20
    let limit : Int :=
      if limitStr ≠ lit "" then
        match Atoi limitStr with
        | some l => l
        | none => limit
      else limit
    match h.service.GetChatWithMessages id limit st with
    | ((_, some err), st1) => (httpError err.Error StatusNotFound, st1)
    | ((chatWithMessages, none), st1) =>
      (jsonResponse StatusOK (json.EncodeChatWithMessages chatWithMessages), st1)

/-- `(*ChatHandler).DeleteChat`. -/
def ChatHandler.DeleteChat {σ : Type} (h : ChatHandler σ) (r : Request) (st : σ) :
    Response × σ :=
  match ParseInt r.id with
  | none => (httpError (lit "Invalid chat ID") StatusBadRequest, st)
  | some id =>
    match h.service.DeleteChat id st with
    | (some _, st1) => (httpError (lit "Chat not found") StatusNotFound, st1)
    | (none, st1) => ({ Code := StatusNoContent, Header := [], Body := lit "" }, st1)

/-- `(*ChatHandler).CreateMessage`. -/
def ChatHandler.CreateMessage {σ : Type} (h : ChatHandler σ) (json : JSON) (r : Request)
    (st : σ) : Response × σ :=
  match ParseInt r.id with
  | none => (httpError (lit "Invalid chat ID") StatusBadRequest, st)
  | some chatID =>
    match json.DecodeText r.body with
    | none => (httpError (lit "Invalid JSON") StatusBadRequest, st)
    | some text =>
      match h.service.CreateMessage chatID text st with
      | ((_, some err), st1) =>
        if err.Error = lit "chat not found" then (httpError err.Error StatusNotFound, st1)
        else (httpError err.Error StatusBadRequest, st1)
      | ((message, none), st1) => (jsonResponse StatusCreated (json.EncodeMessage message), st1)

/-! ## Observing the service calls -/

/-- A call of a service method, with its arguments. -/
inductive ServiceCall where
  | CreateChat (title : GoString)
  | GetChatWithMessages (chatID : Int) (limit : Int)
  | DeleteChat (chatID : Int)
  | CreateMessage (chatID : Int) (text : GoString)
  deriving DecidableEq, Repr

/-- A service that appends each call to a log and forwards it. -/
def ChatServiceInterface.traced {σ : Type} (s : ChatServiceInterface σ) :
    ChatServiceInterface (σ × List ServiceCall) where
  CreateChat title st :=
    ((s.CreateChat title st.1).1,
      ((s.CreateChat title st.1).2, st.2 ++ [ServiceCall.CreateChat title]))
  GetChatWithMessages chatID limit st :=
    ((s.GetChatWithMessages chatID limit st.1).1,
      ((s.GetChatWithMessages chatID limit st.1).2,
        st.2 ++ [ServiceCall.GetChatWithMessages chatID limit]))
  DeleteChat chatID st :=
    ((s.DeleteChat chatID st.1).1,
      ((s.DeleteChat chatID st.1).2, st.2 ++ [ServiceCall.DeleteChat chatID]))
  CreateMessage chatID text st :=
    ((s.CreateMessage chatID text st.1).1,
      ((s.CreateMessage chatID text st.1).2, st.2 ++ [ServiceCall.CreateMessage chatID text]))

/-! ## Test doubles of the handler tests (internal/handler/chat_test.go) -/

/-- A JSON codec that knows the request bodies of the tests and nothing else;
every value is encoded as `null`. -/
def testJSON : JSON where
  DecodeTitle body :=
    if body = lit "\x7b\"title\":\"Тестовый чат\"\x7d" then some (lit "Тестовый чат")
    else if body = lit "\x7b\"title\":\"\"\x7d" then some (lit "")
    else none
  DecodeText body :=
    if body = lit "\x7b\"text\":\"Привет!\"\x7d" then some (lit "Привет!")
    else if body = lit "\x7b\"text\":\"\"\x7d" then some (lit "")
    else none
  EncodeChat _ := lit "null\n"
  EncodeChatWithMessages _ := lit "null\n"
  EncodeMessage _ := lit "null\n"

/-- A `MockChatServiceInterface` with canned results; the store is the number of
calls received. -/
def mockService (createChat : Option Chat × Option GoError)
    (getChat : Option ChatWithMessages × Option GoError) (deleteChat : Option GoError)
    (createMessage : Option Message × Option GoError) : ChatServiceInterface Nat where
  CreateChat _ n := (createChat, n + 1)
  GetChatWithMessages _ _ n := (getChat, n + 1)
  DeleteChat _ n := (deleteChat, n + 1)
  CreateMessage _ _ n := (createMessage, n + 1)

/-- A service double that fails every call with the error `e`. -/
def failingService (e : GoError) : ChatServiceInterface Nat :=
  mockService (none, some e) (none, some e) (some e) (none, some e)

instance : IsTotal Message newerOrSame := ⟨fun a b => le_total b.CreatedAt a.CreatedAt⟩

instance : IsTrans Message newerOrSame :=
  ⟨fun _ _ _ hab hbc => le_trans hbc hab⟩

/-- The store of the tests once it has become unreachable: every statement
fails with `storageError`. -/
def downDB : DB := { dbWithThree with failure := some storageError }

/-- The store after the DELETE statement on a reachable store. -/
def afterDelete (id : Int) (db : DB) : DB :=
  { db with
    chats := db.chats.filter (fun c => ¬ c.ID = id),
    messages := db.messages.filter
      (fun m => ¬ (db.chats.filter (fun c => c.ID = id)).any (fun c => c.ID = m.ChatID)) }

/-- The value of `limit` that the handler `GetChat` passes to the service: the
number in the query parameter, or 20 when the parameter is missing or is not
a number. -/
def queryLimit (limitStr : GoString) : Int :=
  let limit : Int := 20
  if limitStr ≠ lit "" then
    match Atoi limitStr with
    | some l => l
    | none => limit
  else limit

/-- A request for the chat `id`, with a query limit and a body. -/
def request (id limit body : String) : Request :=
  { id := lit id, limit := lit limit, body := lit body }

/-! ## Basic facts -/

theorem lit_empty : lit "" = [] := rfl

/-- `CreateChat` on a title that trims to the empty string. -/
theorem CreateChat_of_empty {σ : Type} (s : ChatService σ) (t : GoString) (st : σ)
    (h : TrimSpace t = lit "") :
    s.CreateChat t st = ((none, some (errors.New (lit "title cannot be empty"))), st) := by
  simp [ChatService.CreateChat, h]

/-- `CreateChat` on a title whose trimmed form is longer than 200 bytes. -/
theorem CreateChat_of_long {σ : Type} (s : ChatService σ) (t : GoString) (st : σ)
    (h1 : TrimSpace t ≠ lit "") (h2 : len (TrimSpace t) > 200) :
    s.CreateChat t st
      = ((none, some (errors.New (lit "title must be 1-200 characters"))), st) := by
  simp [ChatService.CreateChat, h1, h2]

/-- `CreateChat` on a valid title whose `Create` fails. -/
theorem CreateChat_of_create_error {σ : Type} (s : ChatService σ) (t : GoString) (st st1 : σ)
    (chat : Chat) (err : GoError)
    (h1 : TrimSpace t ≠ lit "") (h2 : len (TrimSpace t) ≤ 200)
    (h3 : s.chatRepo.Create (newChat (TrimSpace t)) st = ((chat, some err), st1)) :
    s.CreateChat t st = ((none, some err), st1) := by
  have h2 : ¬ len (TrimSpace t) > 200 := not_lt.mpr h2
  simp only [newChat] at h3
  simp [ChatService.CreateChat, h1, h2, h3]

/-- `CreateChat` on a valid title whose `Create` succeeds. -/
theorem CreateChat_of_create_ok {σ : Type} (s : ChatService σ) (t : GoString) (st st1 : σ)
    (chat : Chat)
    (h1 : TrimSpace t ≠ lit "") (h2 : len (TrimSpace t) ≤ 200)
    (h3 : s.chatRepo.Create (newChat (TrimSpace t)) st = ((chat, none), st1)) :
    s.CreateChat t st = ((some chat, none), st1) := by
  have h2 : ¬ len (TrimSpace t) > 200 := not_lt.mpr h2
  simp only [newChat] at h3
  simp [ChatService.CreateChat, h1, h2, h3]

/-- The recording service returns what the service returns. -/
theorem traced_CreateChat_result {σ : Type} (s : ChatService σ) (t : GoString) (st : σ)
    (log : List Call) :
    (s.traced.CreateChat t (st, log)).1 = (s.CreateChat t st).1
      ∧ (s.traced.CreateChat t (st, log)).2.1 = (s.CreateChat t st).2 := by
  unfold ChatService.CreateChat
  by_cases h1 : TrimSpace t = lit ""
  · simp [h1]
  · by_cases h2 : len (TrimSpace t) > 200
    · simp [h1, h2]
    · simp only [h1, h2, if_false, ChatService.traced, NewChatService, ChatRepository.traced]
      rcases h : s.chatRepo.Create { ID := 0, Title := TrimSpace t, CreatedAt := 0 } st
        with ⟨⟨c, _ | e⟩, st1⟩ <;> simp

/-- The calls `CreateChat` makes: none for a rejected title, otherwise one
`Create` with the chat built from the trimmed title. -/
theorem traced_CreateChat_log {σ : Type} (s : ChatService σ) (t : GoString) (st : σ)
    (log : List Call) :
    (s.traced.CreateChat t (st, log)).2.2 =
      if TrimSpace t = lit "" ∨ len (TrimSpace t) > 200 then log
      else log ++ [Call.chatCreate (newChat (TrimSpace t))] := by
  unfold ChatService.CreateChat
  by_cases h1 : TrimSpace t = lit ""
  · simp [h1]
  · by_cases h2 : len (TrimSpace t) > 200
    · simp [h1, h2]
    · simp only [h1, h2, if_false, ChatService.traced, NewChatService, ChatRepository.traced,
        newChat, or_self]
      rcases h : s.chatRepo.Create { ID := 0, Title := TrimSpace t, CreatedAt := 0 } st
        with ⟨⟨c, _ | e⟩, st1⟩ <;> simp

/-- `CreateMessage` when `Exists` fails. -/
theorem CreateMessage_of_exists_error {σ : Type} (s : ChatService σ) (chatID : Int)
    (text : GoString) (st st1 : σ) (b : Bool) (err : GoError)
    (h : s.chatRepo.Exists chatID st = ((b, some err), st1)) :
    s.CreateMessage chatID text st = ((none, some err), st1) := by
  simp [ChatService.CreateMessage, h]

/-- `CreateMessage` when the chat does not exist. -/
theorem CreateMessage_of_absent {σ : Type} (s : ChatService σ) (chatID : Int)
    (text : GoString) (st st1 : σ)
    (h : s.chatRepo.Exists chatID st = ((false, none), st1)) :
    s.CreateMessage chatID text st
      = ((none, some (errors.New (lit "chat not found"))), st1) := by
  simp [ChatService.CreateMessage, h]

/-- `CreateMessage` on a text that trims to the empty string. -/
theorem CreateMessage_of_empty {σ : Type} (s : ChatService σ) (chatID : Int)
    (text : GoString) (st st1 : σ)
    (h : s.chatRepo.Exists chatID st = ((true, none), st1))
    (h1 : TrimSpace text = lit "") :
    s.CreateMessage chatID text st
      = ((none, some (errors.New (lit "text cannot be empty"))), st1) := by
  simp [ChatService.CreateMessage, h, h1]

/-- `CreateMessage` on a text whose trimmed form is longer than 5000 bytes. -/
theorem CreateMessage_of_long {σ : Type} (s : ChatService σ) (chatID : Int)
    (text : GoString) (st st1 : σ)
    (h : s.chatRepo.Exists chatID st = ((true, none), st1))
    (h1 : TrimSpace text ≠ lit "") (h2 : len (TrimSpace text) > 5000) :
    s.CreateMessage chatID text st
      = ((none, some (errors.New (lit "text must be 1-5000 characters"))), st1) := by
  simp [ChatService.CreateMessage, h, h1, h2]

/-- `CreateMessage` on a valid text whose `Create` fails. -/
theorem CreateMessage_of_create_error {σ : Type} (s : ChatService σ) (chatID : Int)
    (text : GoString) (st st1 st2 : σ) (message : Message) (err : GoError)
    (h : s.chatRepo.Exists chatID st = ((true, none), st1))
    (h1 : TrimSpace text ≠ lit "") (h2 : len (TrimSpace text) ≤ 5000)
    (h3 : s.messageRepo.Create (newMessage chatID (TrimSpace text)) st1
      = ((message, some err), st2)) :
    s.CreateMessage chatID text st = ((none, some err), st2) := by
  have h2 : ¬ len (TrimSpace text) > 5000 := not_lt.mpr h2
  simp only [newMessage] at h3
  simp [ChatService.CreateMessage, h, h1, h2, h3]

/-- `CreateMessage` on a valid text whose `Create` succeeds. -/
theorem CreateMessage_of_create_ok {σ : Type} (s : ChatService σ) (chatID : Int)
    (text : GoString) (st st1 st2 : σ) (message : Message)
    (h : s.chatRepo.Exists chatID st = ((true, none), st1))
    (h1 : TrimSpace text ≠ lit "") (h2 : len (TrimSpace text) ≤ 5000)
    (h3 : s.messageRepo.Create (newMessage chatID (TrimSpace text)) st1
      = ((message, none), st2)) :
    s.CreateMessage chatID text st = ((some message, none), st2) := by
  have h2 : ¬ len (TrimSpace text) > 5000 := not_lt.mpr h2
  simp only [newMessage] at h3
  simp [ChatService.CreateMessage, h, h1, h2, h3]

/-- The calls `CreateMessage` makes: `Exists` first, and one `Create` with the
message built from the trimmed text when the chat exists and the text is valid. -/
theorem traced_CreateMessage_log {σ : Type} (s : ChatService σ) (chatID : Int)
    (text : GoString) (st : σ) (log : List Call) :
    (s.traced.CreateMessage chatID text (st, log)).2.2 =
      if (s.chatRepo.Exists chatID st).1 = (true, none) ∧ TrimSpace text ≠ lit ""
          ∧ len (TrimSpace text) ≤ 5000 then
        log ++ [Call.chatExists chatID, Call.messageCreate (newMessage chatID (TrimSpace text))]
      else log ++ [Call.chatExists chatID] := by
  unfold ChatService.CreateMessage
  simp only [ChatService.traced, NewChatService, ChatRepository.traced, MessageRepository.traced,
    newMessage]
  rcases h : s.chatRepo.Exists chatID st with ⟨⟨b, _ | e⟩, st1⟩
  · cases b
    · simp
    · by_cases h1 : TrimSpace text = lit ""
      · simp [h1]
      · by_cases h2 : len (TrimSpace text) > 5000
        · have h2b : ¬ len (TrimSpace text) ≤ 5000 := not_le.mpr h2
          simp [h1, h2, h2b]
        · have h2b : len (TrimSpace text) ≤ 5000 := not_lt.mp h2
          simp only [h1, h2, if_false]
          rcases h3 : s.messageRepo.Create
            { ID := 0, ChatID := chatID, Text := TrimSpace text, CreatedAt := 0 } st1
            with ⟨⟨m, _ | e⟩, st2⟩ <;> simp [h1, h2b]
  · simp

/-- `GetChatWithMessages` when `GetByID` fails. -/
theorem GetChatWithMessages_of_getByID_error {σ : Type} (s : ChatService σ) (chatID limit : Int)
    (st st1 : σ) (chat : Option Chat) (err : GoError)
    (h : s.chatRepo.GetByID chatID st = ((chat, some err), st1)) :
    s.GetChatWithMessages chatID limit st = ((none, some err), st1) := by
  simp [ChatService.GetChatWithMessages, h]

/-- `GetChatWithMessages` when `GetByID` reports absence. -/
theorem GetChatWithMessages_of_absent {σ : Type} (s : ChatService σ) (chatID limit : Int)
    (st st1 : σ) (h : s.chatRepo.GetByID chatID st = ((none, none), st1)) :
    s.GetChatWithMessages chatID limit st
      = ((none, some (errors.New (lit "chat not found"))), st1) := by
  simp [ChatService.GetChatWithMessages, h]

/-- `GetChatWithMessages` when the chat is present and `GetByChatID` fails. -/
theorem GetChatWithMessages_of_getByChatID_error {σ : Type} (s : ChatService σ)
    (chatID limit : Int) (st st1 st2 : σ) (chat : Chat) (messages : List Message)
    (err : GoError)
    (h : s.chatRepo.GetByID chatID st = ((some chat, none), st1))
    (h1 : s.messageRepo.GetByChatID chatID (normLimit limit) st1
      = ((messages, some err), st2)) :
    s.GetChatWithMessages chatID limit st = ((none, some err), st2) := by
  simp only [normLimit] at h1
  simp [ChatService.GetChatWithMessages, h, h1]

/-- `GetChatWithMessages` when both repository calls succeed. -/
theorem GetChatWithMessages_of_ok {σ : Type} (s : ChatService σ)
    (chatID limit : Int) (st st1 st2 : σ) (chat : Chat) (messages : List Message)
    (h : s.chatRepo.GetByID chatID st = ((some chat, none), st1))
    (h1 : s.messageRepo.GetByChatID chatID (normLimit limit) st1 = ((messages, none), st2)) :
    s.GetChatWithMessages chatID limit st
      = ((some { Chat := chat, Messages := messages }, none), st2) := by
  simp only [normLimit] at h1
  simp [ChatService.GetChatWithMessages, h, h1]

/-- The calls `GetChatWithMessages` makes: `GetByID` first, and `GetByChatID`
with the normalized limit when the chat was found. -/
theorem traced_GetChatWithMessages_log {σ : Type} (s : ChatService σ) (chatID limit : Int)
    (st : σ) (log : List Call) :
    (s.traced.GetChatWithMessages chatID limit (st, log)).2.2 =
      match (s.chatRepo.GetByID chatID st).1 with
      | (some _, none) =>
        log ++ [Call.chatGetByID chatID, Call.messageGetByChatID chatID (normLimit limit)]
      | _ => log ++ [Call.chatGetByID chatID] := by
  unfold ChatService.GetChatWithMessages
  simp only [ChatService.traced, NewChatService, ChatRepository.traced, MessageRepository.traced,
    normLimit]
  rcases h : s.chatRepo.GetByID chatID st with ⟨⟨_ | c, _ | e⟩, st1⟩
  · simp
  · simp
  · simp only []
    rcases h1 : s.messageRepo.GetByChatID chatID
        (if (if limit ≤ 0 then 20 else limit) > 100 then 100 else if limit ≤ 0 then 20 else limit)
        st1 with ⟨⟨ms, _ | e⟩, st2⟩ <;> simp
  · simp

/-! ## Facts about `strings.TrimSpace` -/

/-- Whether `indexFuncLoop` finds nothing does not depend on the index it
started from. -/
theorem indexFuncLoop_shift (f : Nat → Bool) (truth : Bool) (s : GoString) :
    ∀ (i j skip : Nat), indexFuncLoop f truth s i skip = -1 →
      indexFuncLoop f truth s j skip = -1 := by
  induction s with
  | nil => intro i j skip _; rfl
  | cons c rest ih =>
    intro i j skip h
    cases skip with
    | succ k =>
      simp only [indexFuncLoop] at h ⊢
      exact ih _ _ _ h
    | zero =>
      simp only [indexFuncLoop] at h ⊢
      rcases hd : DecodeRuneInString (c :: rest) with ⟨r, w⟩
      rw [hd] at h
      simp only at h ⊢
      by_cases hf : f r = truth
      · simp only [hf, if_true] at h
        omega
      · simp only [hf, if_false] at h ⊢
        exact ih _ _ _ h

/-- An ASCII byte decodes to itself, with width 1. -/
theorem DecodeRuneInString_ascii (c : UInt8) (rest : GoString) (h : c.toNat < RuneSelf) :
    DecodeRuneInString (c :: rest) = (c.toNat, 1) := by
  simp [DecodeRuneInString, byteAt, h]

/-- On ASCII, `unicode.IsSpace` and the table `asciiSpace` agree. -/
theorem asciiSpace_of_IsSpace (c : Nat) (h : c < RuneSelf) (hs : IsSpace c = true) :
    asciiSpace c = true := by
  simp only [RuneSelf] at h
  have h1 : c ≤ 0xFF := by omega
  simp only [IsSpace, h1, if_true, decide_eq_true_eq] at hs
  simp only [asciiSpace, decide_eq_true_eq]
  omega

theorem TrimRightFunc_nil (f : Nat → Bool) : TrimRightFunc [] f = [] := by
  simp [TrimRightFunc, slice]

/-- A string of white space only is trimmed to the empty string. -/
theorem TrimSpace_of_whitespaceOnly (s : GoString) (h : whitespaceOnly s) :
    TrimSpace s = lit "" := by
  rw [lit_empty]
  unfold whitespaceOnly indexFunc at h
  induction s with
  | nil => rfl
  | cons c rest ih =>
    by_cases hc : RuneSelf ≤ c.toNat
    · have hl : TrimLeftFunc (c :: rest) IsSpace = [] := by
        simp [TrimLeftFunc, indexFunc, h]
      simp only [TrimSpace, hc, if_true, TrimFunc, hl, TrimRightFunc_nil]
    · have hc1 : c.toNat < RuneSelf := not_le.mp hc
      simp only [indexFuncLoop, DecodeRuneInString_ascii c rest hc1] at h
      by_cases hsp : IsSpace c.toNat = true
      · have hne : ¬ (IsSpace c.toNat = false) := by simp [hsp]
        simp only [hne, if_false] at h
        have h0 := indexFuncLoop_shift IsSpace false rest _ 0 _ h
        simp only [TrimSpace, hc, if_false, asciiSpace_of_IsSpace _ hc1 hsp, if_true]
        exact ih h0
      · have hf : IsSpace c.toNat = false := by simpa using hsp
        simp only [hf, if_true] at h
        omega

theorem slice_zero_length (s : GoString) : slice s 0 s.length = s := by
  simp [slice]

/-- A string that starts and ends with an ASCII byte that is not a space is
left as it is. -/
theorem TrimSpace_eq_self (c : UInt8) (rest : GoString)
    (h1 : c.toNat < RuneSelf) (h2 : asciiSpace c.toNat = false)
    (h3 : byteAt (c :: rest) rest.length < RuneSelf)
    (h4 : asciiSpace (byteAt (c :: rest) rest.length) = false) :
    TrimSpace (c :: rest) = c :: rest := by
  have hc : ¬ RuneSelf ≤ c.toNat := not_le.mpr h1
  have h3b : ¬ RuneSelf ≤ byteAt (c :: rest) rest.length := not_le.mpr h3
  simp only [TrimSpace, hc, if_false, h2, List.length_cons, trimSpaceStop, h3b, h4]
  simpa using slice_zero_length (c :: rest)

theorem byteAt_replicate (b : UInt8) (n i : Nat) (h : i < n) :
    byteAt (List.replicate n b) i = b.toNat := by
  simp [byteAt, List.getD_eq_getElem?_getD, List.getElem?_replicate, h]

/-- Zero bytes are not white space: nothing is trimmed. -/
theorem TrimSpace_zeroBytes (n : Nat) : TrimSpace (zeroBytes n) = zeroBytes n := by
  cases n with
  | zero => rfl
  | succ k =>
    have hb : byteAt ((0 : UInt8) :: List.replicate k 0) (List.replicate k (0 : UInt8)).length
        = (0 : UInt8).toNat := by
      have := byteAt_replicate 0 (k + 1) k (by omega)
      simpa [List.replicate_succ] using this
    have := TrimSpace_eq_self 0 (List.replicate k 0) (by decide) (by decide)
      (by rw [hb]; decide) (by rw [hb]; decide)
    simpa [zeroBytes, List.replicate_succ] using this

theorem len_zeroBytes (n : Nat) : len (zeroBytes n) = n := by
  simp [len, zeroBytes]

theorem ne_empty_of_len_pos (s : GoString) (h : 0 < len s) : s ≠ lit "" := by
  intro he
  rw [he] at h
  exact absurd h (by decide)

theorem runeCountLoop_le (s : GoString) : ∀ skip, runeCountLoop s skip ≤ s.length := by
  induction s with
  | nil => intro skip; simp [runeCountLoop]
  | cons c rest ih =>
    intro skip
    cases skip with
    | succ k =>
      simp only [runeCountLoop, List.length_cons]
      have := ih k
      omega
    | zero =>
      simp only [runeCountLoop, List.length_cons]
      have := ih ((DecodeRuneInString (c :: rest)).2 - 1)
      omega

/-- A string has at most as many runes as bytes. -/
theorem RuneCountInString_le_len (s : GoString) : (RuneCountInString s : Int) ≤ len s := by
  have := runeCountLoop_le s 0
  simp only [RuneCountInString, len]
  exact_mod_cast this

/-! ## The claims -/

/-- C1: when the repository's `Create` succeeds, `CreateChat t` succeeds exactly
when `TrimSpace t` is non-empty and at most 200 bytes long. On success the only
repository call is `Create` with a chat whose `Title` is `TrimSpace t`, the chat
returned is that chat as `Create` left it, and so its `Title` is `TrimSpace t`
whenever `Create` does not write the title. -/
theorem C1_CreateChat_succeeds_iff_trimmed_title_valid {σ : Type} (s : ChatService σ)
    (t : GoString) (st : σ)
    (hcreate : (s.chatRepo.Create (newChat (TrimSpace t)) st).1.2 = none) :
    ((s.CreateChat t st).1.2 = none ↔ TrimSpace t ≠ lit "" ∧ len (TrimSpace t) ≤ 200)
    ∧ ((s.CreateChat t st).1.2 = none →
        (s.traced.CreateChat t (st, [])).2.2 = [Call.chatCreate (newChat (TrimSpace t))]
        ∧ (newChat (TrimSpace t)).Title = TrimSpace t
        ∧ (s.CreateChat t st).1.1 = some (s.chatRepo.Create (newChat (TrimSpace t)) st).1.1
        ∧ ((s.chatRepo.Create (newChat (TrimSpace t)) st).1.1.Title = TrimSpace t →
            ∃ chat, (s.CreateChat t st).1.1 = some chat ∧ chat.Title = TrimSpace t)) := by
  have hiff : (s.CreateChat t st).1.2 = none ↔ TrimSpace t ≠ lit "" ∧ len (TrimSpace t) ≤ 200 := by
    by_cases h1 : TrimSpace t = lit ""
    · simp [CreateChat_of_empty s t st h1, h1]
    · by_cases h2 : len (TrimSpace t) > 200
      · simp [CreateChat_of_long s t st h1 h2, not_le.mpr h2]
      · have h2b : len (TrimSpace t) ≤ 200 := not_lt.mp h2
        rcases h : s.chatRepo.Create (newChat (TrimSpace t)) st with ⟨⟨c, e⟩, st1⟩
        rw [h] at hcreate
        simp only at hcreate
        subst hcreate
        simp [CreateChat_of_create_ok s t st st1 c h1 h2b h, h1, h2b]
  refine ⟨hiff, fun hok => ?_⟩
  obtain ⟨h1, h2⟩ := hiff.mp hok
  rcases h : s.chatRepo.Create (newChat (TrimSpace t)) st with ⟨⟨c, e⟩, st1⟩
  rw [h] at hcreate
  simp only at hcreate
  subst hcreate
  refine ⟨?_, rfl, ?_, ?_⟩
  · rw [traced_CreateChat_log]
    simp [h1, not_lt.mpr h2]
  · rw [CreateChat_of_create_ok s t st st1 c h1 h2 h]
  · intro htitle
    exact ⟨c, by rw [CreateChat_of_create_ok s t st st1 c h1 h2 h], htitle⟩

set_option maxRecDepth 100000 in
/-- C1, the test "тримминг пробелов": the title `"  Чат с пробелами  "` is
handed to the repository and returned as `"Чат с пробелами"`. -/
theorem C1_CreateChat_trims_witness :
    (okService.chatRepo.Create (newChat (TrimSpace (lit "  Чат с пробелами  "))) 0).1.2 = none
    ∧ (okService.CreateChat (lit "  Чат с пробелами  ") 0).1.2 = none
    ∧ (okService.traced.CreateChat (lit "  Чат с пробелами  ") (0, [])).2.2
        = [Call.chatCreate { ID := 0, Title := lit "Чат с пробелами", CreatedAt := 0 }]
    ∧ (okService.CreateChat (lit "  Чат с пробелами  ") 0).1.1
        = some { ID := 1, Title := lit "Чат с пробелами", CreatedAt := mockNow } := by
  have ht : TrimSpace (lit "  Чат с пробелами  ") = lit "Чат с пробелами" := by decide
  have hlen : len (lit "Чат с пробелами") ≤ 200 := by decide
  have hne : lit "Чат с пробелами" ≠ lit "" := by decide
  have h := C1_CreateChat_succeeds_iff_trimmed_title_valid okService
    (lit "  Чат с пробелами  ") 0 rfl
  rw [ht] at h
  have hok := h.1.mpr ⟨hne, hlen⟩
  exact ⟨rfl, hok, (h.2 hok).1, (h.2 hok).2.2.1⟩

/-- C2: when `Exists` reports the chat and the message repository's `Create`
succeeds, `CreateMessage chatID text` succeeds exactly when `TrimSpace text` is
non-empty and at most 5000 bytes long. On success the repository calls are
`Exists` and then `Create` with a message whose `Text` is `TrimSpace text` and
whose `ChatID` is `chatID`; the message returned is that message as `Create`
left it, so it has this text and chat id whenever `Create` does not write them. -/
theorem C2_CreateMessage_succeeds_iff_trimmed_text_valid {σ : Type} (s : ChatService σ)
    (chatID : Int) (text : GoString) (st st1 : σ)
    (hexists : s.chatRepo.Exists chatID st = ((true, none), st1))
    (hcreate : (s.messageRepo.Create (newMessage chatID (TrimSpace text)) st1).1.2 = none) :
    ((s.CreateMessage chatID text st).1.2 = none
      ↔ TrimSpace text ≠ lit "" ∧ len (TrimSpace text) ≤ 5000)
    ∧ ((s.CreateMessage chatID text st).1.2 = none →
        (s.traced.CreateMessage chatID text (st, [])).2.2
          = [Call.chatExists chatID, Call.messageCreate (newMessage chatID (TrimSpace text))]
        ∧ (newMessage chatID (TrimSpace text)).Text = TrimSpace text
        ∧ (newMessage chatID (TrimSpace text)).ChatID = chatID
        ∧ (s.CreateMessage chatID text st).1.1
            = some (s.messageRepo.Create (newMessage chatID (TrimSpace text)) st1).1.1
        ∧ ((s.messageRepo.Create (newMessage chatID (TrimSpace text)) st1).1.1.Text
              = TrimSpace text
            ∧ (s.messageRepo.Create (newMessage chatID (TrimSpace text)) st1).1.1.ChatID
              = chatID →
            ∃ m, (s.CreateMessage chatID text st).1.1 = some m ∧ m.Text = TrimSpace text
              ∧ m.ChatID = chatID)) := by
  have hiff : (s.CreateMessage chatID text st).1.2 = none
      ↔ TrimSpace text ≠ lit "" ∧ len (TrimSpace text) ≤ 5000 := by
    by_cases h1 : TrimSpace text = lit ""
    · simp [CreateMessage_of_empty s chatID text st st1 hexists h1, h1]
    · by_cases h2 : len (TrimSpace text) > 5000
      · simp [CreateMessage_of_long s chatID text st st1 hexists h1 h2, not_le.mpr h2]
      · have h2b : len (TrimSpace text) ≤ 5000 := not_lt.mp h2
        rcases h : s.messageRepo.Create (newMessage chatID (TrimSpace text)) st1
          with ⟨⟨m, e⟩, st2⟩
        rw [h] at hcreate
        simp only at hcreate
        subst hcreate
        simp [CreateMessage_of_create_ok s chatID text st st1 st2 m hexists h1 h2b h, h1, h2b]
  refine ⟨hiff, fun hok => ?_⟩
  obtain ⟨h1, h2⟩ := hiff.mp hok
  rcases h : s.messageRepo.Create (newMessage chatID (TrimSpace text)) st1 with ⟨⟨m, e⟩, st2⟩
  rw [h] at hcreate
  simp only at hcreate
  subst hcreate
  refine ⟨?_, rfl, rfl, ?_, ?_⟩
  · rw [traced_CreateMessage_log]
    simp [hexists, h1, h2]
  · rw [CreateMessage_of_create_ok s chatID text st st1 st2 m hexists h1 h2 h]
  · intro hkeep
    exact ⟨m, by rw [CreateMessage_of_create_ok s chatID text st st1 st2 m hexists h1 h2 h],
      hkeep.1, hkeep.2⟩

set_option maxRecDepth 100000 in
/-- C2, the test "тримминг пробелов": in the existing chat 1 the text
`"  Сообщение с пробелами  "` is stored and returned as `"Сообщение с пробелами"`. -/
theorem C2_CreateMessage_trims_witness :
    okService.chatRepo.Exists 1 0 = ((true, none), 1)
    ∧ (okService.CreateMessage 1 (lit "  Сообщение с пробелами  ") 0).1.2 = none
    ∧ (okService.traced.CreateMessage 1 (lit "  Сообщение с пробелами  ") (0, [])).2.2
        = [Call.chatExists 1, Call.messageCreate
            { ID := 0, ChatID := 1, Text := lit "Сообщение с пробелами", CreatedAt := 0 }]
    ∧ (okService.CreateMessage 1 (lit "  Сообщение с пробелами  ") 0).1.1
        = some { ID := 1, ChatID := 1, Text := lit "Сообщение с пробелами",
                 CreatedAt := mockNow } := by
  have ht : TrimSpace (lit "  Сообщение с пробелами  ") = lit "Сообщение с пробелами" := by
    decide
  have hlen : len (lit "Сообщение с пробелами") ≤ 5000 := by decide
  have hne : lit "Сообщение с пробелами" ≠ lit "" := by decide
  have h := C2_CreateMessage_succeeds_iff_trimmed_text_valid okService 1
    (lit "  Сообщение с пробелами  ") 0 1 rfl rfl
  rw [ht] at h
  have hok := h.1.mpr ⟨hne, hlen⟩
  exact ⟨rfl, hok, (h.2 hok).1, (h.2 hok).2.2.2.1⟩

/-- C3: when `Exists` returns `(false, nil)`, `CreateMessage chatID text` fails
with the error "chat not found" whatever the text is, hence with neither of the
two text-validation errors, and the only repository call is `Exists`: the
message repository's `Create` is not called. -/
theorem C3_CreateMessage_absent_chat_not_found_first {σ : Type} (s : ChatService σ)
    (chatID : Int) (text : GoString) (st st1 : σ)
    (hexists : s.chatRepo.Exists chatID st = ((false, none), st1)) :
    s.CreateMessage chatID text st = ((none, some (errors.New (lit "chat not found"))), st1)
    ∧ (s.CreateMessage chatID text st).1.2 ≠ some (errors.New (lit "text cannot be empty"))
    ∧ (s.CreateMessage chatID text st).1.2
        ≠ some (errors.New (lit "text must be 1-5000 characters"))
    ∧ (s.traced.CreateMessage chatID text (st, [])).2.2 = [Call.chatExists chatID]
    ∧ (∀ m, Call.messageCreate m ∉ (s.traced.CreateMessage chatID text (st, [])).2.2) := by
  have hres := CreateMessage_of_absent s chatID text st st1 hexists
  have hlog : (s.traced.CreateMessage chatID text (st, [])).2.2 = [Call.chatExists chatID] := by
    rw [traced_CreateMessage_log]
    simp [hexists]
  have hne1 : (some (errors.New (lit "chat not found")) : Option GoError)
      ≠ some (errors.New (lit "text cannot be empty")) := by decide
  have hne2 : (some (errors.New (lit "chat not found")) : Option GoError)
      ≠ some (errors.New (lit "text must be 1-5000 characters")) := by decide
  refine ⟨hres, ?_, ?_, hlog, ?_⟩
  · rw [hres]; exact hne1
  · rw [hres]; exact hne2
  · intro m
    rw [hlog]
    simp

/-- C3, the absent chat 999 with the empty text, a whitespace-only text, a
valid text and a text of 5001 bytes: "chat not found" each time, after the
single call `Exists 999`. -/
theorem C3_CreateMessage_absent_witness :
    absentService.chatRepo.Exists 999 0 = ((false, none), 1)
    ∧ absentService.CreateMessage 999 (lit "") 0
        = ((none, some (errors.New (lit "chat not found"))), 1)
    ∧ absentService.CreateMessage 999 (lit "   ") 0
        = ((none, some (errors.New (lit "chat not found"))), 1)
    ∧ absentService.CreateMessage 999 (lit "Привет!") 0
        = ((none, some (errors.New (lit "chat not found"))), 1)
    ∧ absentService.CreateMessage 999 (zeroBytes 5001) 0
        = ((none, some (errors.New (lit "chat not found"))), 1)
    ∧ (absentService.traced.CreateMessage 999 (lit "") (0, [])).2.2 = [Call.chatExists 999] :=
  ⟨rfl,
    (C3_CreateMessage_absent_chat_not_found_first absentService 999 (lit "") 0 1 rfl).1,
    (C3_CreateMessage_absent_chat_not_found_first absentService 999 (lit "   ") 0 1 rfl).1,
    (C3_CreateMessage_absent_chat_not_found_first absentService 999 (lit "Привет!") 0 1 rfl).1,
    (C3_CreateMessage_absent_chat_not_found_first absentService 999 (zeroBytes 5001) 0 1 rfl).1,
    (C3_CreateMessage_absent_chat_not_found_first absentService 999 (lit "") 0 1 rfl).2.2.2.1⟩

/-- C4: when `GetByID` returns a chat, `GetChatWithMessages chatID limit` calls
`GetByID chatID` and then `GetByChatID chatID l`, where `l` is 20 for
`limit ≤ 0`, 100 for `limit > 100` and `limit` itself for `1 ≤ limit ≤ 100`. -/
theorem C4_GetChatWithMessages_limit_passed {σ : Type} (s : ChatService σ)
    (chatID limit : Int) (st st1 : σ) (chat : Chat)
    (hget : s.chatRepo.GetByID chatID st = ((some chat, none), st1)) :
    ∃ l : Int,
      (s.traced.GetChatWithMessages chatID limit (st, [])).2.2
        = [Call.chatGetByID chatID, Call.messageGetByChatID chatID l]
      ∧ (s.GetChatWithMessages chatID limit st).1
        = (match (s.messageRepo.GetByChatID chatID l st1).1 with
            | (_, some err) => (none, some err)
            | (messages, none) => (some { Chat := chat, Messages := messages }, none))
      ∧ (limit ≤ 0 → l = 20)
      ∧ (limit > 100 → l = 100)
      ∧ (1 ≤ limit ∧ limit ≤ 100 → l = limit) := by
  refine ⟨normLimit limit, ?_, ?_, ?_, ?_, ?_⟩
  · rw [traced_GetChatWithMessages_log]
    simp [hget]
  · rcases h : s.messageRepo.GetByChatID chatID (normLimit limit) st1 with ⟨⟨ms, _ | e⟩, st2⟩
    · rw [GetChatWithMessages_of_ok s chatID limit st st1 st2 chat ms hget h]
    · rw [GetChatWithMessages_of_getByChatID_error s chatID limit st st1 st2 chat ms e hget h]
  · intro h
    simp [normLimit, h]
  · intro h
    have h0 : ¬ limit ≤ 0 := by omega
    simp [normLimit, h0, h]
  · intro h
    have h0 : ¬ limit ≤ 0 := by omega
    have h1 : ¬ limit > 100 := by omega
    simp [normLimit, h0, h1]

/-- C4, the limits of the tests: 0 is passed on as 20, 150 as 100 and 10 as 10. -/
theorem C4_GetChatWithMessages_limit_witness :
    (okService.traced.GetChatWithMessages 1 0 (0, [])).2.2
        = [Call.chatGetByID 1, Call.messageGetByChatID 1 20]
    ∧ (okService.traced.GetChatWithMessages 1 150 (0, [])).2.2
        = [Call.chatGetByID 1, Call.messageGetByChatID 1 100]
    ∧ (okService.traced.GetChatWithMessages 1 10 (0, [])).2.2
        = [Call.chatGetByID 1, Call.messageGetByChatID 1 10] := by
  obtain ⟨l0, hlog0, -, h0, -, -⟩ :=
    C4_GetChatWithMessages_limit_passed okService 1 0 0 1 _ rfl
  obtain ⟨l1, hlog1, -, -, h1, -⟩ :=
    C4_GetChatWithMessages_limit_passed okService 1 150 0 1 _ rfl
  obtain ⟨l2, hlog2, -, -, -, h2⟩ :=
    C4_GetChatWithMessages_limit_passed okService 1 10 0 1 _ rfl
  rw [h0 (by decide)] at hlog0
  rw [h1 (by decide)] at hlog1
  rw [h2 (by decide)] at hlog2
  exact ⟨hlog0, hlog1, hlog2⟩

/-- C5: when `GetByID` returns the absence signal `(nil, nil)`,
`GetChatWithMessages` returns no composite and the error "chat not found", and
its only repository call is `GetByID`: `GetByChatID` is not called. -/
theorem C5_GetChatWithMessages_absent_not_found {σ : Type} (s : ChatService σ)
    (chatID limit : Int) (st st1 : σ)
    (hget : s.chatRepo.GetByID chatID st = ((none, none), st1)) :
    s.GetChatWithMessages chatID limit st
      = ((none, some (errors.New (lit "chat not found"))), st1)
    ∧ (s.traced.GetChatWithMessages chatID limit (st, [])).2.2 = [Call.chatGetByID chatID]
    ∧ (∀ c l, Call.messageGetByChatID c l
        ∉ (s.traced.GetChatWithMessages chatID limit (st, [])).2.2) := by
  have hlog : (s.traced.GetChatWithMessages chatID limit (st, [])).2.2
      = [Call.chatGetByID chatID] := by
    rw [traced_GetChatWithMessages_log]
    simp [hget]
  refine ⟨GetChatWithMessages_of_absent s chatID limit st st1 hget, hlog, ?_⟩
  intro c l
  rw [hlog]
  simp

/-- C5, the test "чат не найден": `GetChatWithMessages(999, 20)` on the absent
chat 999. -/
theorem C5_GetChatWithMessages_absent_witness :
    absentService.chatRepo.GetByID 999 0 = ((none, none), 1)
    ∧ absentService.GetChatWithMessages 999 20 0
        = ((none, some (errors.New (lit "chat not found"))), 1)
    ∧ (absentService.traced.GetChatWithMessages 999 20 (0, [])).2.2 = [Call.chatGetByID 999] :=
  ⟨rfl,
    (C5_GetChatWithMessages_absent_not_found absentService 999 20 0 1 rfl).1,
    (C5_GetChatWithMessages_absent_not_found absentService 999 20 0 1 rfl).2.1⟩

/-- C6: `CreateChat t` fails with exactly "title cannot be empty" when
`TrimSpace t` is empty, as it is for the empty and for a whitespace-only title,
and with exactly "title must be 1-200 characters" when `TrimSpace t` is
non-empty and longer than 200 (in bytes, hence also when longer than 200 in
code points); the empty check comes first, so a title whose trimmed form is
empty never gets the length message. -/
theorem C6_CreateChat_empty_check_before_length_check {σ : Type} (s : ChatService σ)
    (t : GoString) (st : σ) :
    (TrimSpace t = lit "" →
      s.CreateChat t st = ((none, some (errors.New (lit "title cannot be empty"))), st))
    ∧ (t = lit "" ∨ whitespaceOnly t →
      s.CreateChat t st = ((none, some (errors.New (lit "title cannot be empty"))), st))
    ∧ (TrimSpace t ≠ lit "" ∧ len (TrimSpace t) > 200 →
      s.CreateChat t st
        = ((none, some (errors.New (lit "title must be 1-200 characters"))), st))
    ∧ (TrimSpace t ≠ lit "" ∧ (RuneCountInString (TrimSpace t) : Int) > 200 →
      s.CreateChat t st
        = ((none, some (errors.New (lit "title must be 1-200 characters"))), st))
    ∧ (TrimSpace t = lit "" →
      (s.CreateChat t st).1.2 ≠ some (errors.New (lit "title must be 1-200 characters"))) := by
  have hne : (some (errors.New (lit "title cannot be empty")) : Option GoError)
      ≠ some (errors.New (lit "title must be 1-200 characters")) := by decide
  refine ⟨CreateChat_of_empty s t st, ?_, ?_, ?_, ?_⟩
  · rintro (h | h)
    · exact CreateChat_of_empty s t st (by rw [h]; rfl)
    · exact CreateChat_of_empty s t st (TrimSpace_of_whitespaceOnly t h)
  · rintro ⟨h1, h2⟩
    exact CreateChat_of_long s t st h1 h2
  · rintro ⟨h1, h2⟩
    exact CreateChat_of_long s t st h1
      (lt_of_lt_of_le h2 (RuneCountInString_le_len (TrimSpace t)))
  · intro h
    rw [CreateChat_of_empty s t st h]
    exact hne

/-- C6, the titles of the tests: `""` and `"   "` (and a title of Unicode
spaces) give "title cannot be empty"; 201 zero bytes give "title must be 1-200
characters". -/
theorem C6_CreateChat_messages_witness :
    okService.CreateChat (lit "") 0
        = ((none, some (errors.New (lit "title cannot be empty"))), 0)
    ∧ okService.CreateChat (lit "   ") 0
        = ((none, some (errors.New (lit "title cannot be empty"))), 0)
    ∧ okService.CreateChat (lit " \t　 \n") 0
        = ((none, some (errors.New (lit "title cannot be empty"))), 0)
    ∧ okService.CreateChat (zeroBytes 201) 0
        = ((none, some (errors.New (lit "title must be 1-200 characters"))), 0) := by
  have hlong : TrimSpace (zeroBytes 201) ≠ lit "" ∧ len (TrimSpace (zeroBytes 201)) > 200 := by
    rw [TrimSpace_zeroBytes, len_zeroBytes]
    exact ⟨ne_empty_of_len_pos _ (by rw [len_zeroBytes]; decide), by decide⟩
  exact ⟨(C6_CreateChat_empty_check_before_length_check okService (lit "") 0).2.1 (Or.inl rfl),
    (C6_CreateChat_empty_check_before_length_check okService (lit "   ") 0).2.1
      (Or.inr (by decide)),
    (C6_CreateChat_empty_check_before_length_check okService (lit " \t　 \n") 0).2.1
      (Or.inr (by decide)),
    (C6_CreateChat_empty_check_before_length_check okService (zeroBytes 201) 0).2.2.1 hlong⟩

/-- C7: for a chat that `Exists` reports, `CreateMessage chatID text` fails with
exactly "text cannot be empty" when `TrimSpace text` is empty (the empty and
the whitespace-only text), and with exactly "text must be 1-5000 characters"
when `TrimSpace text` is non-empty and longer than 5000 (in bytes, hence also
when longer than 5000 in code points). -/
theorem C7_CreateMessage_validation_messages {σ : Type} (s : ChatService σ) (chatID : Int)
    (text : GoString) (st st1 : σ)
    (hexists : s.chatRepo.Exists chatID st = ((true, none), st1)) :
    (TrimSpace text = lit "" →
      s.CreateMessage chatID text st
        = ((none, some (errors.New (lit "text cannot be empty"))), st1))
    ∧ (text = lit "" ∨ whitespaceOnly text →
      s.CreateMessage chatID text st
        = ((none, some (errors.New (lit "text cannot be empty"))), st1))
    ∧ (TrimSpace text ≠ lit "" ∧ len (TrimSpace text) > 5000 →
      s.CreateMessage chatID text st
        = ((none, some (errors.New (lit "text must be 1-5000 characters"))), st1))
    ∧ (TrimSpace text ≠ lit "" ∧ (RuneCountInString (TrimSpace text) : Int) > 5000 →
      s.CreateMessage chatID text st
        = ((none, some (errors.New (lit "text must be 1-5000 characters"))), st1)) := by
  refine ⟨CreateMessage_of_empty s chatID text st st1 hexists, ?_, ?_, ?_⟩
  · rintro (h | h)
    · exact CreateMessage_of_empty s chatID text st st1 hexists (by rw [h]; rfl)
    · exact CreateMessage_of_empty s chatID text st st1 hexists
        (TrimSpace_of_whitespaceOnly text h)
  · rintro ⟨h1, h2⟩
    exact CreateMessage_of_long s chatID text st st1 hexists h1 h2
  · rintro ⟨h1, h2⟩
    exact CreateMessage_of_long s chatID text st st1 hexists h1
      (lt_of_lt_of_le h2 (RuneCountInString_le_len (TrimSpace text)))

/-- C7, the texts of the tests in the existing chat 1: `""` and `"   "` give
"text cannot be empty", 5001 zero bytes give "text must be 1-5000 characters". -/
theorem C7_CreateMessage_messages_witness :
    okService.chatRepo.Exists 1 0 = ((true, none), 1)
    ∧ okService.CreateMessage 1 (lit "") 0
        = ((none, some (errors.New (lit "text cannot be empty"))), 1)
    ∧ okService.CreateMessage 1 (lit "   ") 0
        = ((none, some (errors.New (lit "text cannot be empty"))), 1)
    ∧ okService.CreateMessage 1 (zeroBytes 5001) 0
        = ((none, some (errors.New (lit "text must be 1-5000 characters"))), 1) := by
  have hlong : TrimSpace (zeroBytes 5001) ≠ lit "" ∧ len (TrimSpace (zeroBytes 5001)) > 5000 := by
    rw [TrimSpace_zeroBytes, len_zeroBytes]
    exact ⟨ne_empty_of_len_pos _ (by rw [len_zeroBytes]; decide), by decide⟩
  exact ⟨rfl,
    (C7_CreateMessage_validation_messages okService 1 (lit "") 0 1 rfl).2.1 (Or.inl rfl),
    (C7_CreateMessage_validation_messages okService 1 (lit "   ") 0 1 rfl).2.1
      (Or.inr (by decide)),
    (C7_CreateMessage_validation_messages okService 1 (zeroBytes 5001) 0 1 rfl).2.2.1 hlong⟩

set_option maxRecDepth 100000 in
/-- C8: a title of 150 Cyrillic letters is its own trimmed form, has 150 code
points and 300 bytes, and `CreateChat` rejects it with "title must be 1-200
characters" without calling the repository: the bound is compared with the
byte length `len(title)`, not with the number of characters. -/
theorem C8_CreateChat_rejects_150_cyrillic_letters :
    TrimSpace cyrillic150 = cyrillic150
    ∧ RuneCountInString (TrimSpace cyrillic150) = 150
    ∧ len (TrimSpace cyrillic150) = 300
    ∧ okService.CreateChat cyrillic150 0
        = ((none, some (errors.New (lit "title must be 1-200 characters"))), 0)
    ∧ (okService.traced.CreateChat cyrillic150 (0, [])).2.2 = [] := by
  have ht : TrimSpace cyrillic150 = cyrillic150 := by decide
  have hlen : len cyrillic150 = 300 := by decide
  have hne : TrimSpace cyrillic150 ≠ lit "" :=
    ne_empty_of_len_pos _ (by rw [ht, hlen]; decide)
  have hlong : len (TrimSpace cyrillic150) > 200 := by rw [ht, hlen]; decide
  refine ⟨ht, ?_, ?_, CreateChat_of_long okService cyrillic150 0 hne hlong, ?_⟩
  · rw [ht]; decide
  · rw [ht]; exact hlen
  · rw [traced_CreateChat_log]
    simp [hlong]

set_option maxRecDepth 100000 in
/-- C9, as stated, fails: 10 letters followed by 200 spaces are 210 bytes with a
non-empty trimmed form, and `CreateChat` does not answer "title must be 1-200
characters" but hands the 10 letters to the repository and succeeds. -/
theorem C9_raw_length_counterexample :
    len lettersThenSpaces > 200
    ∧ TrimSpace lettersThenSpaces ≠ lit ""
    ∧ (okService.CreateChat lettersThenSpaces 0).1.2
        ≠ some (errors.New (lit "title must be 1-200 characters"))
    ∧ (okService.CreateChat lettersThenSpaces 0).1
        = (some { ID := 1, Title := List.replicate 10 0x41, CreatedAt := mockNow }, none) := by
  have ht : TrimSpace lettersThenSpaces = List.replicate 10 0x41 := by decide
  have h1 : TrimSpace lettersThenSpaces ≠ lit "" := by rw [ht]; decide
  have h2 : len (TrimSpace lettersThenSpaces) ≤ 200 := by rw [ht]; decide
  have hres : okService.CreateChat lettersThenSpaces 0
      = ((some { ID := 1, Title := List.replicate 10 0x41, CreatedAt := mockNow }, none), 1) :=
    CreateChat_of_create_ok okService lettersThenSpaces 0 1 _ h1 h2 (by rw [ht]; rfl)
  refine ⟨by decide, h1, ?_, ?_⟩
  · rw [hres]; exact fun h => Option.noConfusion h
  · rw [hres]

/-- C9, amended: the bound of 200 is checked on the length of the trimmed
title. Every title with `len (TrimSpace t) > 200` is rejected with "title must
be 1-200 characters" and the store is left as it was; a title whose trimmed
form is non-empty and at most 200 bytes long passes both checks whatever its
raw length, and the outcome is that of the repository's `Create`. -/
theorem C9_CreateChat_length_checked_after_trim {σ : Type} (s : ChatService σ)
    (t : GoString) (st : σ) :
    (len (TrimSpace t) > 200 →
      s.CreateChat t st
        = ((none, some (errors.New (lit "title must be 1-200 characters"))), st))
    ∧ (TrimSpace t ≠ lit "" ∧ len (TrimSpace t) ≤ 200 →
      (s.CreateChat t st).1.2 = (s.chatRepo.Create (newChat (TrimSpace t)) st).1.2
      ∧ (s.CreateChat t st).2 = (s.chatRepo.Create (newChat (TrimSpace t)) st).2
      ∧ (s.traced.CreateChat t (st, [])).2.2 = [Call.chatCreate (newChat (TrimSpace t))]) := by
  constructor
  · intro h
    exact CreateChat_of_long s t st (ne_empty_of_len_pos _ (lt_trans (by decide) h)) h
  · rintro ⟨h1, h2⟩
    have hlog : (s.traced.CreateChat t (st, [])).2.2
        = [Call.chatCreate (newChat (TrimSpace t))] := by
      rw [traced_CreateChat_log]
      simp [h1, not_lt.mpr h2]
    rcases h : s.chatRepo.Create (newChat (TrimSpace t)) st with ⟨⟨c, _ | e⟩, st1⟩
    · rw [CreateChat_of_create_ok s t st st1 c h1 h2 h]
      exact ⟨rfl, rfl, hlog⟩
    · rw [CreateChat_of_create_error s t st st1 c e h1 h2 h]
      exact ⟨rfl, rfl, hlog⟩

set_option maxRecDepth 100000 in
/-- C9, amended, on the title of the test "слишком длинный title" (201 zero
bytes, rejected) and on 10 letters followed by 200 spaces (accepted). -/
theorem C9_CreateChat_length_checked_after_trim_witness :
    len (TrimSpace (zeroBytes 201)) > 200
    ∧ okService.CreateChat (zeroBytes 201) 0
        = ((none, some (errors.New (lit "title must be 1-200 characters"))), 0)
    ∧ (TrimSpace lettersThenSpaces ≠ lit "" ∧ len (TrimSpace lettersThenSpaces) ≤ 200)
    ∧ (okService.CreateChat lettersThenSpaces 0).1.2 = none := by
  have hlong : len (TrimSpace (zeroBytes 201)) > 200 := by
    rw [TrimSpace_zeroBytes, len_zeroBytes]; decide
  have ht : TrimSpace lettersThenSpaces = List.replicate 10 0x41 := by decide
  have hshort : TrimSpace lettersThenSpaces ≠ lit "" ∧ len (TrimSpace lettersThenSpaces) ≤ 200 := by
    rw [ht]; exact ⟨by decide, by decide⟩
  refine ⟨hlong, (C9_CreateChat_length_checked_after_trim okService (zeroBytes 201) 0).1 hlong,
    hshort, ?_⟩
  rw [((C9_CreateChat_length_checked_after_trim okService lettersThenSpaces 0).2 hshort).1]
  rfl

/-- C10: the service returns the error of a repository call as it is, with a
nil entity, and leaves the store as that call left it. `DeleteChat` returns what
`Delete` returns; `CreateChat` returns the error of `Create`;
`GetChatWithMessages` returns the error of `GetByID` (whatever chat came with
it) or of `GetByChatID`; `CreateMessage` returns the error of `Exists`
(whatever boolean came with it) or of the message repository's `Create`. -/
theorem C10_repository_errors_returned_unchanged {σ : Type} (s : ChatService σ) :
    (∀ id st, s.DeleteChat id st = s.chatRepo.Delete id st)
    ∧ (∀ t st e, TrimSpace t ≠ lit "" → len (TrimSpace t) ≤ 200 →
        (s.chatRepo.Create (newChat (TrimSpace t)) st).1.2 = some e →
        s.CreateChat t st
          = ((none, some e), (s.chatRepo.Create (newChat (TrimSpace t)) st).2))
    ∧ (∀ id limit st e, (s.chatRepo.GetByID id st).1.2 = some e →
        s.GetChatWithMessages id limit st = ((none, some e), (s.chatRepo.GetByID id st).2))
    ∧ (∀ id limit st chat e, (s.chatRepo.GetByID id st).1 = (some chat, none) →
        (s.messageRepo.GetByChatID id (normLimit limit) (s.chatRepo.GetByID id st).2).1.2
          = some e →
        s.GetChatWithMessages id limit st = ((none, some e),
          (s.messageRepo.GetByChatID id (normLimit limit) (s.chatRepo.GetByID id st).2).2))
    ∧ (∀ id text st e, (s.chatRepo.Exists id st).1.2 = some e →
        s.CreateMessage id text st = ((none, some e), (s.chatRepo.Exists id st).2))
    ∧ (∀ id text st e, (s.chatRepo.Exists id st).1 = (true, none) →
        TrimSpace text ≠ lit "" → len (TrimSpace text) ≤ 5000 →
        (s.messageRepo.Create (newMessage id (TrimSpace text)) (s.chatRepo.Exists id st).2).1.2
          = some e →
        s.CreateMessage id text st = ((none, some e),
          (s.messageRepo.Create (newMessage id (TrimSpace text))
            (s.chatRepo.Exists id st).2).2)) := by
  refine ⟨fun _ _ => rfl, ?_, ?_, ?_, ?_, ?_⟩
  · intro t st e h1 h2 h3
    rcases h : s.chatRepo.Create (newChat (TrimSpace t)) st with ⟨⟨c, e1⟩, st1⟩
    rw [h] at h3
    simp only at h3
    subst h3
    exact CreateChat_of_create_error s t st st1 c e h1 h2 h
  · intro id limit st e h1
    rcases h : s.chatRepo.GetByID id st with ⟨⟨c, e1⟩, st1⟩
    rw [h] at h1
    simp only at h1
    subst h1
    exact GetChatWithMessages_of_getByID_error s id limit st st1 c e h
  · intro id limit st chat e h1 h2
    rcases h : s.chatRepo.GetByID id st with ⟨⟨c, e1⟩, st1⟩
    rw [h] at h1 h2
    simp only [Prod.mk.injEq] at h1
    obtain ⟨hc, he⟩ := h1
    subst hc he
    rcases hm : s.messageRepo.GetByChatID id (normLimit limit) st1 with ⟨⟨ms, e2⟩, st2⟩
    rw [hm] at h2
    simp only at h2
    subst h2
    exact GetChatWithMessages_of_getByChatID_error s id limit st st1 st2 chat ms e h hm
  · intro id text st e h1
    rcases h : s.chatRepo.Exists id st with ⟨⟨b, e1⟩, st1⟩
    rw [h] at h1
    simp only at h1
    subst h1
    exact CreateMessage_of_exists_error s id text st st1 b e h
  · intro id text st e h1 h2 h3 h4
    rcases h : s.chatRepo.Exists id st with ⟨⟨b, e1⟩, st1⟩
    rw [h] at h1 h4
    simp only [Prod.mk.injEq] at h1
    obtain ⟨hb, he⟩ := h1
    subst hb he
    rcases hm : s.messageRepo.Create (newMessage id (TrimSpace text)) st1 with ⟨⟨m, e2⟩, st2⟩
    rw [hm] at h4
    simp only at h4
    subst h4
    exact CreateMessage_of_create_error s id text st st1 st2 m e h h2 h3 hm

set_option maxRecDepth 100000 in
/-- C10 on the test doubles: `DeleteChat 999` returns the "chat not found" of
`Delete`, and a storage error of each of the other five repository calls comes
back as it is, with a nil entity. -/
theorem C10_repository_errors_witness :
    absentService.DeleteChat 999 0 = (some (errors.New (lit "chat not found")), 1)
    ∧ okService.DeleteChat 1 0 = (none, 1)
    ∧ brokenChatService.DeleteChat 1 0 = (some storageError, 1)
    ∧ brokenChatService.CreateChat (lit "Тестовый чат") 0 = ((none, some storageError), 1)
    ∧ brokenChatService.GetChatWithMessages 1 20 0 = ((none, some storageError), 1)
    ∧ brokenMessageService.GetChatWithMessages 1 20 0 = ((none, some storageError), 2)
    ∧ brokenChatService.CreateMessage 1 (lit "Привет!") 0 = ((none, some storageError), 1)
    ∧ brokenMessageService.CreateMessage 1 (lit "Привет!") 0
        = ((none, some storageError), 2) := by
  have ht : TrimSpace (lit "Тестовый чат") ≠ lit "" ∧ len (TrimSpace (lit "Тестовый чат")) ≤ 200 := by
    decide
  have hm : TrimSpace (lit "Привет!") ≠ lit "" ∧ len (TrimSpace (lit "Привет!")) ≤ 5000 := by
    decide
  exact ⟨(C10_repository_errors_returned_unchanged absentService).1 999 0,
    (C10_repository_errors_returned_unchanged okService).1 1 0,
    (C10_repository_errors_returned_unchanged brokenChatService).1 1 0,
    (C10_repository_errors_returned_unchanged brokenChatService).2.1 (lit "Тестовый чат") 0
      storageError ht.1 ht.2 rfl,
    (C10_repository_errors_returned_unchanged brokenChatService).2.2.1 1 20 0 storageError rfl,
    (C10_repository_errors_returned_unchanged brokenMessageService).2.2.2.1 1 20 0 _
      storageError rfl rfl,
    (C10_repository_errors_returned_unchanged brokenChatService).2.2.2.2.1 1 (lit "Привет!") 0
      storageError rfl,
    (C10_repository_errors_returned_unchanged brokenMessageService).2.2.2.2.2 1 (lit "Привет!")
      0 storageError rfl hm.1 hm.2 rfl⟩

/-! ## Facts about the store and the repositories -/

/-- The statement of `Exists` reads and does not write. -/
theorem chatRepository_Exists_store (id : Int) (db : DB) :
    (chatRepository.Exists id db).2 = db := by
  unfold chatRepository.Exists gormCountChats
  cases db.failure <;> rfl

/-- The statement of `GetByID` reads and does not write. -/
theorem chatRepository_GetByID_store (id : Int) (db : DB) :
    (chatRepository.GetByID id db).2 = db := by
  unfold chatRepository.GetByID gormFirstChat
  cases db.failure with
  | some e => simp only []; split <;> [rfl; (split <;> rfl)]
  | none =>
    simp only []
    cases db.chats.find? (fun c => c.ID = id) <;> simp only [] <;> split <;>
      [rfl; (split <;> rfl); rfl; (split <;> rfl)]

/-- The statement of `GetByChatID` reads and does not write. -/
theorem messageRepository_GetByChatID_store (chatID limit : Int) (db : DB) :
    (messageRepository.GetByChatID chatID limit db).2 = db := by
  unfold messageRepository.GetByChatID gormFindMessages
  cases db.failure <;> rfl

/-- The store after `CreateMessage` on a rejected text is the store after
`Exists`. -/
theorem CreateMessage_store_of_rejected {σ : Type} (s : ChatService σ) (chatID : Int)
    (text : GoString) (st : σ)
    (h : TrimSpace text = lit "" ∨ len (TrimSpace text) > 5000) :
    (s.CreateMessage chatID text st).2 = (s.chatRepo.Exists chatID st).2 := by
  rcases he : s.chatRepo.Exists chatID st with ⟨⟨b, _ | e⟩, st1⟩
  · cases b
    · rw [CreateMessage_of_absent s chatID text st st1 he]
    · by_cases h1 : TrimSpace text = lit ""
      · rw [CreateMessage_of_empty s chatID text st st1 he h1]
      · have h2 : len (TrimSpace text) > 5000 := h.resolve_left h1
        rw [CreateMessage_of_long s chatID text st st1 he h1 h2]
  · rw [CreateMessage_of_exists_error s chatID text st st1 b e he]

/-- The calls of `CreateMessage` on a rejected text: `Exists` alone. -/
theorem traced_CreateMessage_log_of_rejected {σ : Type} (s : ChatService σ) (chatID : Int)
    (text : GoString) (st : σ) (log : List Call)
    (h : TrimSpace text = lit "" ∨ len (TrimSpace text) > 5000) :
    (s.traced.CreateMessage chatID text (st, log)).2.2 = log ++ [Call.chatExists chatID] := by
  rw [traced_CreateMessage_log]
  have hn : ¬ ((s.chatRepo.Exists chatID st).1 = (true, none) ∧ TrimSpace text ≠ lit ""
      ∧ len (TrimSpace text) ≤ 5000) := by
    rintro ⟨-, h1, h2⟩
    rcases h with h | h
    · exact h1 h
    · exact absurd h (not_lt.mpr h2)
  simp only [hn, if_false]

/-- A successful `GetChatWithMessages` returns the chat of `GetByID` and the
messages of `GetByChatID`, called with the normalized limit. -/
theorem GetChatWithMessages_success {σ : Type} (s : ChatService σ)
    (chatID limit : Int) (st : σ)
    (hok : (s.GetChatWithMessages chatID limit st).1.2 = none) :
    ∃ v : ChatWithMessages,
      (s.GetChatWithMessages chatID limit st).1.1 = some v
      ∧ (s.chatRepo.GetByID chatID st).1 = (some v.Chat, none)
      ∧ (s.messageRepo.GetByChatID chatID (normLimit limit)
          (s.chatRepo.GetByID chatID st).2).1 = (v.Messages, none)
      ∧ (s.GetChatWithMessages chatID limit st).2
          = (s.messageRepo.GetByChatID chatID (normLimit limit)
              (s.chatRepo.GetByID chatID st).2).2
      ∧ (s.traced.GetChatWithMessages chatID limit (st, [])).2.2
          = [Call.chatGetByID chatID, Call.messageGetByChatID chatID (normLimit limit)] := by
  rcases hg : s.chatRepo.GetByID chatID st with ⟨⟨_ | c, _ | e⟩, st1⟩
  · rw [GetChatWithMessages_of_absent s chatID limit st st1 hg] at hok
    exact absurd hok (by simp)
  · rw [GetChatWithMessages_of_getByID_error s chatID limit st st1 none e hg] at hok
    exact absurd hok (by simp)
  · rcases hm : s.messageRepo.GetByChatID chatID (normLimit limit) st1 with ⟨⟨ms, _ | e⟩, st2⟩
    · refine ⟨{ Chat := c, Messages := ms }, ?_, rfl, ?_, ?_, ?_⟩
      · rw [GetChatWithMessages_of_ok s chatID limit st st1 st2 c ms hg hm]
      · simp only [hm]
      · rw [GetChatWithMessages_of_ok s chatID limit st st1 st2 c ms hg hm]
      · rw [traced_GetChatWithMessages_log]
        simp [hg]
    · rw [GetChatWithMessages_of_getByChatID_error s chatID limit st st1 st2 c ms e hg hm]
        at hok
      exact absurd hok (by simp)
  · rw [GetChatWithMessages_of_getByID_error s chatID limit st st1 (some c) e hg] at hok
    exact absurd hok (by simp)

/-- The rows a healthy store returns for `GetByChatID`. -/
theorem GetByChatID_of_healthy (chatID limit : Int) (db : DB) (h : db.failure = none) :
    messageRepository.GetByChatID chatID limit db
      = ((gormLimit limit
          ((db.messages.filter (fun m => m.ChatID = chatID)).insertionSort newerOrSame),
          none), db) := by
  simp [messageRepository.GetByChatID, gormFindMessages, h]

/-- `GetByChatID` on an unreachable store. -/
theorem GetByChatID_of_failure (chatID limit : Int) (db : DB) (e : GoError)
    (h : db.failure = some e) :
    messageRepository.GetByChatID chatID limit db = (([], some e), db) := by
  simp [messageRepository.GetByChatID, gormFindMessages, h]

theorem gormLimit_sublist (limit : Int) (rows : List Message) :
    (gormLimit limit rows).Sublist rows := by
  unfold gormLimit
  split
  · exact List.take_sublist _ _
  · exact List.Sublist.refl _

/-- The rows of `GetByChatID` are newest first, whatever the store. -/
theorem GetByChatID_sorted (chatID limit : Int) (db : DB) :
    List.Pairwise newerOrSame (messageRepository.GetByChatID chatID limit db).1.1 := by
  cases h : db.failure with
  | some e =>
    rw [GetByChatID_of_failure chatID limit db e h]
    exact List.Pairwise.nil
  | none =>
    rw [GetByChatID_of_healthy chatID limit db h]
    exact List.Pairwise.sublist (gormLimit_sublist _ _)
      (List.sorted_insertionSort newerOrSame _)

/-! ## The claims, continued -/

/-- C11: a rejected input causes no persistence write. For a title that fails
validation `CreateChat` makes no repository call at all and leaves the store
as it was; for a text that fails validation `CreateMessage` calls `Exists` and
nothing else, never the message repository's `Create`, so the store is the one
`Exists` left. Over the tables of the store, where `Exists` only reads, the
chats and the messages are the same after the failed call as before it. -/
theorem C11_rejected_input_no_persistence_write {σ : Type} (s : ChatService σ)
    (t : GoString) (chatID : Int) (text : GoString) (st : σ) :
    (TrimSpace t = lit "" ∨ len (TrimSpace t) > 200 →
      (s.traced.CreateChat t (st, [])).2.2 = []
      ∧ (s.CreateChat t st).2 = st
      ∧ ∀ db : DB, (dbService.CreateChat t db).2 = db)
    ∧ (TrimSpace text = lit "" ∨ len (TrimSpace text) > 5000 →
      (s.traced.CreateMessage chatID text (st, [])).2.2 = [Call.chatExists chatID]
      ∧ (∀ m, Call.messageCreate m ∉ (s.traced.CreateMessage chatID text (st, [])).2.2)
      ∧ (s.CreateMessage chatID text st).2 = (s.chatRepo.Exists chatID st).2
      ∧ ∀ db : DB, (dbService.CreateMessage chatID text db).2 = db) := by
  have hchat : ∀ {τ : Type} (s : ChatService τ) (st : τ),
      TrimSpace t = lit "" ∨ len (TrimSpace t) > 200 → (s.CreateChat t st).2 = st := by
    intro τ s st h
    by_cases h1 : TrimSpace t = lit ""
    · rw [CreateChat_of_empty s t st h1]
    · rw [CreateChat_of_long s t st h1 (h.resolve_left h1)]
  constructor
  · intro h
    refine ⟨?_, hchat s st h, fun db => hchat dbService db h⟩
    rw [traced_CreateChat_log]
    simp only [h, if_true]
  · intro h
    have hlog := traced_CreateMessage_log_of_rejected s chatID text st [] h
    simp only [List.nil_append] at hlog
    refine ⟨hlog, ?_, CreateMessage_store_of_rejected s chatID text st h, ?_⟩
    · intro m
      rw [hlog]
      simp
    · intro db
      rw [CreateMessage_store_of_rejected dbService chatID text db h]
      exact chatRepository_Exists_store chatID db

set_option maxRecDepth 100000 in
/-- C11 on the store of the tests, with three messages in chat 1: the titles
`"   "` and 201 zero bytes and the texts `""` and 5001 zero bytes are rejected
and the store is unchanged. -/
theorem C11_rejected_input_witness :
    dbService.CreateChat (lit "   ") dbWithThree
        = ((none, some (errors.New (lit "title cannot be empty"))), dbWithThree)
    ∧ (dbService.CreateChat (zeroBytes 201) dbWithThree).2 = dbWithThree
    ∧ dbService.CreateMessage 1 (lit "") dbWithThree
        = ((none, some (errors.New (lit "text cannot be empty"))), dbWithThree)
    ∧ (dbService.CreateMessage 1 (zeroBytes 5001) dbWithThree).2 = dbWithThree
    ∧ (dbService.traced.CreateMessage 1 (lit "") (dbWithThree, [])).2.2 = [Call.chatExists 1] := by
  have h1 : TrimSpace (lit "   ") = lit "" ∨ len (TrimSpace (lit "   ")) > 200 :=
    Or.inl (by decide)
  have h2 : TrimSpace (zeroBytes 201) = lit "" ∨ len (TrimSpace (zeroBytes 201)) > 200 :=
    Or.inr (by rw [TrimSpace_zeroBytes, len_zeroBytes]; decide)
  have h3 : TrimSpace (lit "") = lit "" ∨ len (TrimSpace (lit "")) > 5000 := Or.inl (by decide)
  have h4 : TrimSpace (zeroBytes 5001) = lit "" ∨ len (TrimSpace (zeroBytes 5001)) > 5000 :=
    Or.inr (by rw [TrimSpace_zeroBytes, len_zeroBytes]; decide)
  refine ⟨?_, ?_, ?_, ?_, ?_⟩
  · exact CreateChat_of_empty dbService _ _ (by decide)
  · exact ((C11_rejected_input_no_persistence_write dbService (zeroBytes 201) 1 (lit "")
      dbWithThree).1 h2).2.2 dbWithThree
  · exact CreateMessage_of_empty dbService 1 _ dbWithThree dbWithThree (by decide) (by decide)
  · exact ((C11_rejected_input_no_persistence_write dbService (lit "   ") 1 (zeroBytes 5001)
      dbWithThree).2 h4).2.2.2 dbWithThree
  · exact ((C11_rejected_input_no_persistence_write dbService (lit "   ") 1 (lit "")
      dbWithThree).2 h3).1

/-- C12: when `GetChatWithMessages chatID limit` succeeds, `GetByID` returned a
chat and `GetByChatID chatID (normLimit limit)` a sequence of messages, both
without error, and the composite returned is made of exactly that chat and
exactly that sequence, nothing added, dropped or reordered; so the messages of
the composite are newest first whenever those of the repository are, as they
are over the tables of the store. -/
theorem C12_GetChatWithMessages_returns_repository_results {σ : Type} (s : ChatService σ)
    (chatID limit : Int) (st : σ)
    (hok : (s.GetChatWithMessages chatID limit st).1.2 = none) :
    (∃ v : ChatWithMessages,
      (s.GetChatWithMessages chatID limit st).1.1 = some v
      ∧ (s.chatRepo.GetByID chatID st).1 = (some v.Chat, none)
      ∧ (s.messageRepo.GetByChatID chatID (normLimit limit)
          (s.chatRepo.GetByID chatID st).2).1 = (v.Messages, none)
      ∧ (s.traced.GetChatWithMessages chatID limit (st, [])).2.2
          = [Call.chatGetByID chatID, Call.messageGetByChatID chatID (normLimit limit)]
      ∧ (List.Pairwise newerOrSame (s.messageRepo.GetByChatID chatID (normLimit limit)
            (s.chatRepo.GetByID chatID st).2).1.1 →
          List.Pairwise newerOrSame v.Messages))
    ∧ (∀ (db : DB) (w : ChatWithMessages),
        (dbService.GetChatWithMessages chatID limit db).1 = (some w, none) →
        List.Pairwise newerOrSame w.Messages) := by
  constructor
  · obtain ⟨v, h1, h2, h3, -, h5⟩ := GetChatWithMessages_success s chatID limit st hok
    refine ⟨v, h1, h2, h3, h5, ?_⟩
    rw [h3]
    exact id
  · intro db w hw
    have hok2 : (dbService.GetChatWithMessages chatID limit db).1.2 = none := by rw [hw]
    obtain ⟨v, h1, -, h3, -, -⟩ := GetChatWithMessages_success dbService chatID limit db hok2
    have hv : w = v := by
      rw [hw] at h1
      exact Option.some.inj h1
    subst hv
    have hs := GetByChatID_sorted chatID (normLimit limit) (dbService.chatRepo.GetByID chatID db).2
    have h3b : (messageRepository.GetByChatID chatID (normLimit limit)
        (dbService.chatRepo.GetByID chatID db).2).1 = (w.Messages, none) := h3
    rw [h3b] at hs
    exact hs

set_option maxRecDepth 100000 in
/-- C12 on the test "успешное получение чата с сообщениями" and on the store
with three messages: the composite holds the chat and the messages of the
repository, Message 3, 2, 1. -/
theorem C12_GetChatWithMessages_composite_witness :
    (okService.GetChatWithMessages 1 10 0).1.2 = none
    ∧ (okService.GetChatWithMessages 1 10 0).1.1
        = some { Chat := { ID := 1, Title := lit "Тест", CreatedAt := mockNow },
                 Messages := [{ ID := 1, ChatID := 1, Text := lit "Привет",
                                CreatedAt := mockNow }] }
    ∧ ((dbService.GetChatWithMessages 1 10 dbWithThree).1.1.map
        (fun v => v.Messages.map (fun m => m.Text)))
        = some [lit "Message 3", lit "Message 2", lit "Message 1"] := by
  obtain ⟨⟨v, h1, h2, h3, -, -⟩, -⟩ :=
    C12_GetChatWithMessages_returns_repository_results okService 1 10 0 rfl
  refine ⟨rfl, ?_, by decide⟩
  rw [h1]
  have hc : v.Chat = { ID := 1, Title := lit "Тест", CreatedAt := mockNow } :=
    (Option.some.inj (congrArg Prod.fst h2)).symm
  have hm : v.Messages = [{ ID := 1, ChatID := 1, Text := lit "Привет", CreatedAt := mockNow }] :=
    (congrArg Prod.fst h3).symm
  cases v
  simp only at hc hm
  rw [hc, hm]

theorem filter_id_eq_nil_iff (chats : List Chat) (id : Int) :
    chats.filter (fun c => c.ID = id) = [] ↔ ¬ ∃ c ∈ chats, c.ID = id := by
  simp [List.filter_eq_nil_iff]

/-- `Delete` on a reachable store with a chat of that id. -/
theorem Delete_of_present (id : Int) (db : DB) (h : db.failure = none)
    (hp : ∃ c ∈ db.chats, c.ID = id) :
    chatRepository.Delete id db = (none, afterDelete id db) := by
  have hne : db.chats.filter (fun c => c.ID = id) ≠ [] :=
    fun he => (filter_id_eq_nil_iff db.chats id).mp he hp
  have hlen : ¬ (((db.chats.filter (fun c => c.ID = id)).length : Int) = 0) := by
    intro h0
    exact hne (List.length_eq_zero.mp (by exact_mod_cast h0))
  simp [chatRepository.Delete, gormDeleteChat, h, hlen, afterDelete]

/-- `Delete` on a reachable store without a chat of that id: no row matched,
and the tables are as they were. -/
theorem Delete_of_absent (id : Int) (db : DB) (h : db.failure = none)
    (hp : ¬ ∃ c ∈ db.chats, c.ID = id) :
    chatRepository.Delete id db = (some ErrChatNotFound, db) := by
  have he : db.chats.filter (fun c => c.ID = id) = [] := (filter_id_eq_nil_iff db.chats id).mpr hp
  have hc : db.chats.filter (fun c => !decide (c.ID = id)) = db.chats := by
    rw [List.filter_eq_self]
    intro c hc
    simpa using fun hid => hp ⟨c, hc, hid⟩
  cases db with
  | mk chats messages chatSeq messageSeq clock failure =>
    simp only at h he hc
    subst h
    simp [chatRepository.Delete, gormDeleteChat, he, hc]

/-- `Delete` on an unreachable store. -/
theorem Delete_of_failure (id : Int) (db : DB) (e : GoError) (h : db.failure = some e) :
    chatRepository.Delete id db = (some e, db) := by
  simp [chatRepository.Delete, gormDeleteChat, h]

/-- `Exists` on a reachable store. -/
theorem Exists_of_healthy (id : Int) (db : DB) (h : db.failure = none) :
    chatRepository.Exists id db = ((decide (∃ c ∈ db.chats, c.ID = id), none), db) := by
  have hiff : (0 < (db.chats.filter (fun c => c.ID = id)).length) ↔ ∃ c ∈ db.chats, c.ID = id := by
    rw [List.length_pos, ne_eq, filter_id_eq_nil_iff, not_not]
  simp only [chatRepository.Exists, gormCountChats, h, gt_iff_lt, Nat.cast_pos, hiff]

/-- `GetByID` on a reachable store without a chat of that id. -/
theorem GetByID_of_absent (id : Int) (db : DB) (h : db.failure = none)
    (hp : ¬ ∃ c ∈ db.chats, c.ID = id) :
    chatRepository.GetByID id db = ((none, none), db) := by
  have hf : db.chats.find? (fun c => c.ID = id) = none := by
    rw [List.find?_eq_none]
    intro c hc
    simpa using fun hid => hp ⟨c, hc, hid⟩
  simp [chatRepository.GetByID, gormFirstChat, h, hf, errors.Is]

/-- `GetByID` on a reachable store with a chat of that id. -/
theorem GetByID_of_present (id : Int) (db : DB) (h : db.failure = none)
    (hp : ∃ c ∈ db.chats, c.ID = id) :
    ∃ c ∈ db.chats, c.ID = id ∧ chatRepository.GetByID id db = ((some c, none), db) := by
  cases hf : db.chats.find? (fun c => c.ID = id) with
  | none =>
    rw [List.find?_eq_none] at hf
    obtain ⟨c, hc, hid⟩ := hp
    exact absurd (by simpa using hid) (hf c hc)
  | some c =>
    have hmem := List.mem_of_find?_eq_some hf
    have hid : c.ID = id := by simpa using List.find?_some hf
    refine ⟨c, hmem, hid, ?_⟩
    have hne : (none : Option GoError) ≠ some ErrRecordNotFound := by simp
    simp [chatRepository.GetByID, gormFirstChat, h, hf, errors.Is]

/-- No chat of the deleted id is left. -/
theorem afterDelete_absent (id : Int) (db : DB) : ¬ ∃ c ∈ (afterDelete id db).chats, c.ID = id := by
  rintro ⟨c, hc, hid⟩
  simp [afterDelete, List.mem_filter] at hc
  exact hc.2 hid

/-- An error of `Exists` is the failure of the store. -/
theorem Exists_error_is_failure (id : Int) (db : DB) (e : GoError)
    (h : (chatRepository.Exists id db).1.2 = some e) : db.failure = some e := by
  cases hf : db.failure with
  | none =>
    rw [Exists_of_healthy id db hf] at h
    exact absurd h (by simp)
  | some e1 =>
    simp only [chatRepository.Exists, gormCountChats, hf] at h
    exact h

/-- An error of `GetByID` is the failure of the store. -/
theorem GetByID_error_is_failure (id : Int) (db : DB) (e : GoError)
    (h : (chatRepository.GetByID id db).1.2 = some e) : db.failure = some e := by
  cases hf : db.failure with
  | none =>
    by_cases hp : ∃ c ∈ db.chats, c.ID = id
    · obtain ⟨c, -, -, hc⟩ := GetByID_of_present id db hf hp
      rw [hc] at h
      exact absurd h (by simp)
    · rw [GetByID_of_absent id db hf hp] at h
      exact absurd h (by simp)
  | some e1 =>
    simp only [chatRepository.GetByID, gormFirstChat, hf] at h
    split at h
    · exact absurd h (by simp)
    · split at h
      · exact h
      · exact absurd h (by simp)

/-- C13: over the chats table of a reachable store, `Delete id` succeeds
exactly when a chat with that id is present, and fails with `ErrChatNotFound`
("chat not found"), changing nothing, when no row matched. After a successful
`Delete id`, `Exists id` returns `(false, nil)`, `GetByID id` returns
`(nil, nil)` and a second `Delete id` fails with `ErrChatNotFound`. `Exists`
and `GetByID` report absence without an error, and presence as `true` and as
the chat; in any state of the store an error they return is the failure of the
store. -/
theorem C13_chats_table_Delete_Exists_GetByID (db : DB) (id : Int)
    (hdb : db.failure = none) :
    ((chatRepository.Delete id db).1 = none ↔ ∃ c ∈ db.chats, c.ID = id)
    ∧ ((¬ ∃ c ∈ db.chats, c.ID = id) →
        chatRepository.Delete id db = (some ErrChatNotFound, db))
    ∧ ErrChatNotFound.Error = lit "chat not found"
    ∧ ((chatRepository.Delete id db).1 = none →
        chatRepository.Exists id (chatRepository.Delete id db).2
          = ((false, none), (chatRepository.Delete id db).2)
        ∧ chatRepository.GetByID id (chatRepository.Delete id db).2
          = ((none, none), (chatRepository.Delete id db).2)
        ∧ chatRepository.Delete id (chatRepository.Delete id db).2
          = (some ErrChatNotFound, (chatRepository.Delete id db).2))
    ∧ ((¬ ∃ c ∈ db.chats, c.ID = id) →
        chatRepository.Exists id db = ((false, none), db)
        ∧ chatRepository.GetByID id db = ((none, none), db))
    ∧ ((∃ c ∈ db.chats, c.ID = id) →
        chatRepository.Exists id db = ((true, none), db)
        ∧ ∃ c ∈ db.chats, c.ID = id ∧ chatRepository.GetByID id db = ((some c, none), db))
    ∧ (∀ (db1 : DB) (e : GoError),
        (chatRepository.Exists id db1).1.2 = some e → db1.failure = some e)
    ∧ (∀ (db1 : DB) (e : GoError),
        (chatRepository.GetByID id db1).1.2 = some e → db1.failure = some e) := by
  have hiff : (chatRepository.Delete id db).1 = none ↔ ∃ c ∈ db.chats, c.ID = id := by
    by_cases hp : ∃ c ∈ db.chats, c.ID = id
    · simp [Delete_of_present id db hdb hp, hp]
    · simp [Delete_of_absent id db hdb hp, hp]
  refine ⟨hiff, Delete_of_absent id db hdb, rfl, ?_, ?_, ?_,
    fun db1 e => Exists_error_is_failure id db1 e,
    fun db1 e => GetByID_error_is_failure id db1 e⟩
  · intro hok
    rw [Delete_of_present id db hdb (hiff.mp hok)]
    have hf : (afterDelete id db).failure = none := hdb
    have ha := afterDelete_absent id db
    refine ⟨?_, GetByID_of_absent id _ hf ha, Delete_of_absent id _ hf ha⟩
    rw [Exists_of_healthy id _ hf]
    simp only [ha, decide_False]
  · intro hp
    refine ⟨?_, GetByID_of_absent id db hdb hp⟩
    rw [Exists_of_healthy id db hdb]
    simp only [hp, decide_False]
  · intro hp
    refine ⟨?_, GetByID_of_present id db hdb hp⟩
    rw [Exists_of_healthy id db hdb]
    simp only [hp, decide_True]

set_option maxRecDepth 100000 in
/-- C13 on `TestChatRepository_Delete`: the chat created gets the id 1; `Delete 1`
succeeds, then `Exists 1` is false, `GetByID 1` is `(nil, nil)` and a second
`Delete 1` fails, as `Delete 999` does, with `ErrChatNotFound`. -/
theorem C13_chats_table_witness :
    dbWithChat.failure = none
    ∧ (chatRepository.Create testChat emptyDB).1
        = ({ ID := 1, Title := lit "Test Chat", CreatedAt := mockNow }, none)
    ∧ (chatRepository.Delete 1 dbWithChat).1 = none
    ∧ (chatRepository.Exists 1 (chatRepository.Delete 1 dbWithChat).2).1 = (false, none)
    ∧ (chatRepository.GetByID 1 (chatRepository.Delete 1 dbWithChat).2).1 = (none, none)
    ∧ (chatRepository.Delete 1 (chatRepository.Delete 1 dbWithChat).2).1 = some ErrChatNotFound
    ∧ chatRepository.Delete 999 dbWithChat = (some ErrChatNotFound, dbWithChat) := by
  have h1 := C13_chats_table_Delete_Exists_GetByID dbWithChat 1 rfl
  have h999 := C13_chats_table_Delete_Exists_GetByID dbWithChat 999 rfl
  have hp : ∃ c ∈ dbWithChat.chats, c.ID = 1 := by decide
  have hn : ¬ ∃ c ∈ dbWithChat.chats, c.ID = 999 := by decide
  have hok := h1.1.mpr hp
  obtain ⟨he, hg, hd⟩ := h1.2.2.2.1 hok
  exact ⟨rfl, by decide, hok, by rw [he], by rw [hg], by rw [hd], h999.2.1 hn⟩

/-- With a limit of at least 1 the clause `Limit` keeps the first `limit` rows. -/
theorem gormLimit_of_pos (limit : Int) (rows : List Message) (h : 1 ≤ limit) :
    gormLimit limit rows = rows.take limit.toNat := by
  have h0 : 0 ≤ limit := by omega
  simp [gormLimit, h0]

/-- The rows selected for a chat, newest first, are the messages of the chat. -/
theorem mem_sorted_rows (db : DB) (chatID : Int) (m : Message) :
    m ∈ (db.messages.filter (fun m => m.ChatID = chatID)).insertionSort newerOrSame
      ↔ m ∈ db.messages ∧ m.ChatID = chatID := by
  rw [(List.perm_insertionSort newerOrSame _).mem_iff, List.mem_filter]
  simp

/-- A row left out by `take` is no newer than a row kept. -/
theorem take_newer_than_rest (rows : List Message) (n : Nat)
    (hs : List.Pairwise newerOrSame rows) (m m1 : Message)
    (hm : m ∈ rows.take n) (hm1 : m1 ∈ rows) (hn : m1 ∉ rows.take n) :
    m1.CreatedAt ≤ m.CreatedAt := by
  have hsplit : rows.take n ++ rows.drop n = rows := List.take_append_drop n rows
  rw [← hsplit] at hs hm1
  rcases List.mem_append.mp hm1 with h | h
  · exact absurd h hn
  · exact (List.pairwise_append.mp hs).2.2 m hm m1 h

/-- C14: over the messages table of a reachable store and for a limit of at
least 1, `GetByChatID chatID limit` returns, without error and without writing,
rows of the table that all belong to `chatID`, each at most as often as the
table has it, newest first; their number is the smaller of `limit` and the
number of messages of the chat, and every message of the chat left out is no
newer than every message returned. The result is empty when the chat has no
messages, and so when the chat does not exist. -/
theorem C14_GetByChatID_most_recent_first (db : DB) (chatID limit : Int)
    (hdb : db.failure = none) (hlimit : 1 ≤ limit) :
    (messageRepository.GetByChatID chatID limit db).1.2 = none
    ∧ (messageRepository.GetByChatID chatID limit db).2 = db
    ∧ (∀ m ∈ (messageRepository.GetByChatID chatID limit db).1.1,
        m.ChatID = chatID ∧ m ∈ db.messages)
    ∧ List.Pairwise newerOrSame (messageRepository.GetByChatID chatID limit db).1.1
    ∧ (((messageRepository.GetByChatID chatID limit db).1.1.length : Int)
        = min limit ((db.messages.filter (fun m => m.ChatID = chatID)).length : Int))
    ∧ (messageRepository.GetByChatID chatID limit db).1.1.Subperm
        (db.messages.filter (fun m => m.ChatID = chatID))
    ∧ (∀ m ∈ (messageRepository.GetByChatID chatID limit db).1.1,
        ∀ m1 ∈ db.messages, m1.ChatID = chatID →
          m1 ∉ (messageRepository.GetByChatID chatID limit db).1.1 →
          m1.CreatedAt ≤ m.CreatedAt)
    ∧ ((∀ m ∈ db.messages, m.ChatID ≠ chatID) →
        (messageRepository.GetByChatID chatID limit db).1.1 = [])
    ∧ (db.referencesValid → (¬ ∃ c ∈ db.chats, c.ID = chatID) →
        (messageRepository.GetByChatID chatID limit db).1.1 = []) := by
  have hsorted := GetByChatID_sorted chatID limit db
  rw [GetByChatID_of_healthy chatID limit db hdb, gormLimit_of_pos limit _ hlimit] at hsorted ⊢
  simp only at hsorted ⊢
  have hperm := List.perm_insertionSort newerOrSame
    (db.messages.filter (fun m => m.ChatID = chatID))
  have hempty : (∀ m ∈ db.messages, m.ChatID ≠ chatID) →
      List.take limit.toNat
        ((db.messages.filter (fun m => m.ChatID = chatID)).insertionSort newerOrSame) = [] := by
    intro hno
    have hf : db.messages.filter (fun m => m.ChatID = chatID) = [] := by
      rw [List.filter_eq_nil_iff]
      intro m hm
      simpa using hno m hm
    rw [hf]
    simp
  refine ⟨trivial, trivial, ?_, hsorted, ?_, ?_, ?_, hempty, ?_⟩
  · intro m hm
    have := (mem_sorted_rows db chatID m).mp (List.mem_of_mem_take hm)
    exact ⟨this.2, this.1⟩
  · rw [List.length_take, hperm.length_eq]
    have hl : ((limit.toNat : Nat) : Int) = limit := Int.toNat_of_nonneg (by omega)
    rw [Nat.cast_min, hl]
  · exact (List.take_sublist _ _).subperm.trans hperm.subperm
  · intro m hm m1 hm1 hc hn
    exact take_newer_than_rest _ limit.toNat (List.sorted_insertionSort newerOrSame _) m m1 hm
      ((mem_sorted_rows db chatID m1).mpr ⟨hm1, hc⟩) hn
  · intro hvalid hno
    apply hempty
    intro m hm hc
    obtain ⟨c, hcm, hid⟩ := hvalid m hm
    exact hno ⟨c, hcm, hid.trans hc⟩

set_option maxRecDepth 100000 in
/-- C14 on the repository tests: three messages one second apart come back
with limit 10 as Message 3, 2, 1; of five messages limit 2 gives the two
newest; a chat without messages and a chat that does not exist give the empty
sequence and no error. -/
theorem C14_GetByChatID_witness :
    (dbWithThree.failure = none ∧ (1 : Int) ≤ 10)
    ∧ ((messageRepository.GetByChatID 1 10 dbWithThree).1.1.map (fun m => m.Text)
        = [lit "Message 3", lit "Message 2", lit "Message 1"])
    ∧ (messageRepository.GetByChatID 1 10 dbWithThree).1.2 = none
    ∧ (messageRepository.GetByChatID 1 2 dbWithFive).1.1.length = 2
    ∧ ((messageRepository.GetByChatID 1 2 dbWithFive).1.1.map (fun m => m.ID) = [5, 4])
    ∧ messageRepository.GetByChatID 1 10 dbWithChat = (([], none), dbWithChat)
    ∧ messageRepository.GetByChatID 999 10 dbWithThree = (([], none), dbWithThree) := by
  have h3 := C14_GetByChatID_most_recent_first dbWithThree 1 10 rfl (by decide)
  have h5 := C14_GetByChatID_most_recent_first dbWithFive 1 2 rfl (by decide)
  have hlen : ((messageRepository.GetByChatID 1 2 dbWithFive).1.1.length : Int) = 2 := by
    rw [h5.2.2.2.2.1]
    decide
  exact ⟨⟨rfl, by decide⟩, by decide, h3.1, by exact_mod_cast hlen, by decide, by decide,
    by decide⟩

/-- A successful `Delete` ran on a reachable store that had the chat. -/
theorem Delete_success (id : Int) (db : DB) (hok : (chatRepository.Delete id db).1 = none) :
    db.failure = none ∧ (∃ c ∈ db.chats, c.ID = id)
      ∧ chatRepository.Delete id db = (none, afterDelete id db) := by
  cases hf : db.failure with
  | some e =>
    rw [Delete_of_failure id db e hf] at hok
    exact absurd hok (by simp)
  | none =>
    by_cases hp : ∃ c ∈ db.chats, c.ID = id
    · exact ⟨rfl, hp, Delete_of_present id db hf hp⟩
    · rw [Delete_of_absent id db hf hp] at hok
      exact absurd hok (by simp)

/-- The messages the cascade removes are those of the deleted chat. -/
theorem afterDelete_messages (id : Int) (db : DB) (hp : ∃ c ∈ db.chats, c.ID = id) :
    (afterDelete id db).messages = db.messages.filter (fun m => ¬ m.ChatID = id) := by
  simp only [afterDelete]
  apply List.filter_congr
  intro m _
  have hany : (db.chats.filter (fun c => c.ID = id)).any (fun c => c.ID = m.ChatID) = true
      ↔ m.ChatID = id := by
    simp only [List.any_eq_true, List.mem_filter, decide_eq_true_eq]
    constructor
    · rintro ⟨c, ⟨-, h1⟩, h2⟩
      exact h2.symm.trans h1
    · intro h
      obtain ⟨c, hc, hid⟩ := hp
      exact ⟨c, ⟨hc, hid⟩, hid.trans h.symm⟩
  by_cases h : m.ChatID = id
  · rw [hany.mpr h]
    simp [h]
  · have : (db.chats.filter (fun c => c.ID = id)).any (fun c => c.ID = m.ChatID) = false := by
      rw [Bool.eq_false_iff]
      exact fun ht => h (hany.mp ht)
    rw [this]
    simp [h]

/-- C15: after `DeleteChat id` has succeeded over the tables of the store,
`GetByChatID id n` returns the empty sequence for every `n`: the messages left
are exactly the messages of the other chats, in their order, and the chats left
are the other chats; and if no message referred to a missing chat before, none
does afterwards. -/
theorem C15_DeleteChat_cascades_to_messages (db : DB) (id : Int)
    (hok : (dbService.DeleteChat id db).1 = none) :
    (∀ n : Int, messageRepository.GetByChatID id n (dbService.DeleteChat id db).2
        = (([], none), (dbService.DeleteChat id db).2))
    ∧ (∀ m ∈ (dbService.DeleteChat id db).2.messages, m.ChatID ≠ id)
    ∧ (dbService.DeleteChat id db).2.messages
        = db.messages.filter (fun m => ¬ m.ChatID = id)
    ∧ (dbService.DeleteChat id db).2.chats = db.chats.filter (fun c => ¬ c.ID = id)
    ∧ (db.referencesValid → (dbService.DeleteChat id db).2.referencesValid) := by
  have hok1 : (chatRepository.Delete id db).1 = none := hok
  obtain ⟨hf, hp, hd⟩ := Delete_success id db hok1
  have hd1 : dbService.DeleteChat id db = (none, afterDelete id db) := hd
  rw [hd1]
  simp only
  have hmsgs := afterDelete_messages id db hp
  have hnone : ∀ m ∈ (afterDelete id db).messages, m.ChatID ≠ id := by
    intro m hm
    rw [hmsgs, List.mem_filter] at hm
    simpa using hm.2
  refine ⟨?_, hnone, hmsgs, rfl, ?_⟩
  · intro n
    have hf1 : (afterDelete id db).failure = none := hf
    rw [GetByChatID_of_healthy id n _ hf1]
    have hnil : (afterDelete id db).messages.filter (fun m => m.ChatID = id) = [] := by
      rw [List.filter_eq_nil_iff]
      intro m hm
      simpa using hnone m hm
    rw [hnil]
    simp [gormLimit]
  · intro hvalid m hm
    rw [hmsgs, List.mem_filter] at hm
    obtain ⟨c, hc, hid⟩ := hvalid m hm.1
    refine ⟨c, ?_, hid⟩
    simp only [afterDelete, List.mem_filter]
    refine ⟨hc, ?_⟩
    have hne : ¬ m.ChatID = id := by simpa using hm.2
    simpa [hid] using hne

set_option maxRecDepth 100000 in
/-- C15 on a store with three messages in chat 1 and one in chat 2: after
`DeleteChat 1` chat 1 has no messages, for any limit, and the message of chat 2
is still there. -/
theorem C15_DeleteChat_cascade_witness :
    (dbService.DeleteChat 1 dbTwoChats).1 = none
    ∧ (dbTwoChats.messages.map (fun m => (m.ID, m.ChatID)) = [(1, 1), (2, 1), (3, 1), (4, 2)])
    ∧ messageRepository.GetByChatID 1 10 (dbService.DeleteChat 1 dbTwoChats).2
        = (([], none), (dbService.DeleteChat 1 dbTwoChats).2)
    ∧ ((dbService.DeleteChat 1 dbTwoChats).2.messages.map (fun m => (m.ID, m.ChatID))
        = [(4, 2)])
    ∧ ((dbService.DeleteChat 1 dbTwoChats).2.chats.map (fun c => c.ID) = [2]) := by
  have hok : (dbService.DeleteChat 1 dbTwoChats).1 = none := by decide
  have h := C15_DeleteChat_cascades_to_messages dbTwoChats 1 hok
  refine ⟨hok, by decide, h.1 10, ?_, ?_⟩
  · rw [h.2.2.1]; decide
  · rw [h.2.2.2.1]; decide

/-- Creating a chat leaves the messages and the chats already there. -/
theorem chatRepository_Create_tables (chat : Chat) (db : DB) :
    (chatRepository.Create chat db).2.messages = db.messages
      ∧ ∀ c ∈ db.chats, c ∈ (chatRepository.Create chat db).2.chats := by
  unfold chatRepository.Create gormCreateChat
  cases db.failure with
  | some e => exact ⟨rfl, fun _ h => h⟩
  | none =>
    simp only []
    split_ifs <;> refine ⟨rfl, fun c hc => ?_⟩ <;> simp [hc]

/-- Creating a message leaves the chats, and adds at most a message whose chat
is there. -/
theorem messageRepository_Create_tables (message : Message) (db : DB) :
    (messageRepository.Create message db).2.chats = db.chats
      ∧ ∀ m ∈ (messageRepository.Create message db).2.messages,
          m ∈ db.messages ∨ ∃ c ∈ db.chats, c.ID = m.ChatID := by
  unfold messageRepository.Create gormCreateMessage
  cases db.failure with
  | some e => exact ⟨rfl, fun _ h => Or.inl h⟩
  | none =>
    simp only []
    split_ifs with h1 h2 h3 h4 h5 h6 <;>
      first
      | exact ⟨rfl, fun _ h => Or.inl h⟩
      | (refine ⟨rfl, fun m hm => ?_⟩
         simp only [List.mem_append, List.mem_singleton] at hm
         rcases hm with hm | hm
         · exact Or.inl hm
         · subst hm
           right
           simpa using ‹(db.chats.any fun c => decide (c.ID = message.ChatID)) = true›)

/-- The two `Create` statements keep every message attached to a chat: a chat
is only added, and a message is only inserted when its chat is there. -/
theorem referencesValid_after_Create (db : DB) (hv : db.referencesValid) :
    (∀ chat, (chatRepository.Create chat db).2.referencesValid)
    ∧ (∀ message, (messageRepository.Create message db).2.referencesValid) := by
  constructor
  · intro chat m hm
    obtain ⟨hmsg, hchats⟩ := chatRepository_Create_tables chat db
    rw [hmsg] at hm
    obtain ⟨c, hc, hid⟩ := hv m hm
    exact ⟨c, hchats c hc, hid⟩
  · intro message m hm
    obtain ⟨hchats, hmsg⟩ := messageRepository_Create_tables message db
    rw [hchats]
    rcases hmsg m hm with h | h
    · exact hv m h
    · exact h

/-! ## Facts about the handlers -/

/-- `CreateChat` (handler) on a body that does not decode. -/
theorem handler_CreateChat_of_bad_json {σ : Type} (h : ChatHandler σ) (json : JSON)
    (r : Request) (st : σ) (hd : json.DecodeTitle r.body = none) :
    h.CreateChat json r st = (httpError (lit "Invalid JSON") StatusBadRequest, st) := by
  simp [ChatHandler.CreateChat, hd]

/-- `CreateChat` (handler) on a service error. -/
theorem handler_CreateChat_of_error {σ : Type} (h : ChatHandler σ) (json : JSON)
    (r : Request) (st : σ) (title : GoString) (e : GoError)
    (hd : json.DecodeTitle r.body = some title)
    (he : (h.service.CreateChat title st).1.2 = some e) :
    h.CreateChat json r st
      = (httpError e.Error StatusBadRequest, (h.service.CreateChat title st).2) := by
  rcases hs : h.service.CreateChat title st with ⟨⟨c, e1⟩, st1⟩
  rw [hs] at he
  simp only at he
  subst he
  simp [ChatHandler.CreateChat, hd, hs]

/-- `CreateChat` (handler) on a service success. -/
theorem handler_CreateChat_of_ok {σ : Type} (h : ChatHandler σ) (json : JSON)
    (r : Request) (st : σ) (title : GoString)
    (hd : json.DecodeTitle r.body = some title)
    (he : (h.service.CreateChat title st).1.2 = none) :
    h.CreateChat json r st
      = (jsonResponse StatusCreated (json.EncodeChat (h.service.CreateChat title st).1.1),
          (h.service.CreateChat title st).2) := by
  rcases hs : h.service.CreateChat title st with ⟨⟨c, e1⟩, st1⟩
  rw [hs] at he
  simp only at he
  subst he
  simp [ChatHandler.CreateChat, hd, hs]

/-- The handler `GetChat`, with the limit it passes on named. -/
theorem handler_GetChat_eq {σ : Type} (h : ChatHandler σ) (json : JSON) (r : Request)
    (st : σ) :
    h.GetChat json r st =
      match ParseInt r.id with
      | none => (httpError (lit "Invalid chat ID") StatusBadRequest, st)
      | some id =>
        match h.service.GetChatWithMessages id (queryLimit r.limit) st with
        | ((_, some err), st1) => (httpError err.Error StatusNotFound, st1)
        | ((chatWithMessages, none), st1) =>
          (jsonResponse StatusOK (json.EncodeChatWithMessages chatWithMessages), st1) := rfl

/-- `GetChat` on an id that is not a number. -/
theorem handler_GetChat_of_bad_id {σ : Type} (h : ChatHandler σ) (json : JSON)
    (r : Request) (st : σ) (hi : ParseInt r.id = none) :
    h.GetChat json r st = (httpError (lit "Invalid chat ID") StatusBadRequest, st) := by
  simp [ChatHandler.GetChat, hi]

/-- `GetChat` on a service error. -/
theorem handler_GetChat_of_error {σ : Type} (h : ChatHandler σ) (json : JSON)
    (r : Request) (st : σ) (id : Int) (e : GoError)
    (hi : ParseInt r.id = some id)
    (he : (h.service.GetChatWithMessages id (queryLimit r.limit) st).1.2 = some e) :
    h.GetChat json r st
      = (httpError e.Error StatusNotFound,
          (h.service.GetChatWithMessages id (queryLimit r.limit) st).2) := by
  rcases hs : h.service.GetChatWithMessages id (queryLimit r.limit) st with ⟨⟨c, e1⟩, st1⟩
  rw [hs] at he
  simp only at he
  subst he
  rw [handler_GetChat_eq]
  simp only [hi, hs]

/-- `GetChat` on a service success. -/
theorem handler_GetChat_of_ok {σ : Type} (h : ChatHandler σ) (json : JSON)
    (r : Request) (st : σ) (id : Int)
    (hi : ParseInt r.id = some id)
    (he : (h.service.GetChatWithMessages id (queryLimit r.limit) st).1.2 = none) :
    h.GetChat json r st
      = (jsonResponse StatusOK (json.EncodeChatWithMessages
            (h.service.GetChatWithMessages id (queryLimit r.limit) st).1.1),
          (h.service.GetChatWithMessages id (queryLimit r.limit) st).2) := by
  rcases hs : h.service.GetChatWithMessages id (queryLimit r.limit) st with ⟨⟨c, e1⟩, st1⟩
  rw [hs] at he
  simp only at he
  subst he
  rw [handler_GetChat_eq]
  simp only [hi, hs]

/-- `DeleteChat` (handler) on an id that is not a number. -/
theorem handler_DeleteChat_of_bad_id {σ : Type} (h : ChatHandler σ)
    (r : Request) (st : σ) (hi : ParseInt r.id = none) :
    h.DeleteChat r st = (httpError (lit "Invalid chat ID") StatusBadRequest, st) := by
  simp [ChatHandler.DeleteChat, hi]

/-- `DeleteChat` (handler) on a service error. -/
theorem handler_DeleteChat_of_error {σ : Type} (h : ChatHandler σ)
    (r : Request) (st : σ) (id : Int) (e : GoError)
    (hi : ParseInt r.id = some id) (he : (h.service.DeleteChat id st).1 = some e) :
    h.DeleteChat r st
      = (httpError (lit "Chat not found") StatusNotFound, (h.service.DeleteChat id st).2) := by
  rcases hs : h.service.DeleteChat id st with ⟨e1, st1⟩
  rw [hs] at he
  simp only at he
  subst he
  simp [ChatHandler.DeleteChat, hi, hs]

/-- `DeleteChat` (handler) on a service success. -/
theorem handler_DeleteChat_of_ok {σ : Type} (h : ChatHandler σ)
    (r : Request) (st : σ) (id : Int)
    (hi : ParseInt r.id = some id) (he : (h.service.DeleteChat id st).1 = none) :
    h.DeleteChat r st
      = ({ Code := StatusNoContent, Header := [], Body := lit "" },
          (h.service.DeleteChat id st).2) := by
  rcases hs : h.service.DeleteChat id st with ⟨e1, st1⟩
  rw [hs] at he
  simp only at he
  subst he
  simp [ChatHandler.DeleteChat, hi, hs]

/-- `CreateMessage` (handler) on an id that is not a number. -/
theorem handler_CreateMessage_of_bad_id {σ : Type} (h : ChatHandler σ) (json : JSON)
    (r : Request) (st : σ) (hi : ParseInt r.id = none) :
    h.CreateMessage json r st = (httpError (lit "Invalid chat ID") StatusBadRequest, st) := by
  simp [ChatHandler.CreateMessage, hi]

/-- `CreateMessage` (handler) on a body that does not decode. -/
theorem handler_CreateMessage_of_bad_json {σ : Type} (h : ChatHandler σ) (json : JSON)
    (r : Request) (st : σ) (id : Int) (hi : ParseInt r.id = some id)
    (hd : json.DecodeText r.body = none) :
    h.CreateMessage json r st = (httpError (lit "Invalid JSON") StatusBadRequest, st) := by
  simp [ChatHandler.CreateMessage, hi, hd]

/-- `CreateMessage` (handler) on a service error. -/
theorem handler_CreateMessage_of_error {σ : Type} (h : ChatHandler σ) (json : JSON)
    (r : Request) (st : σ) (id : Int) (text : GoString) (e : GoError)
    (hi : ParseInt r.id = some id) (hd : json.DecodeText r.body = some text)
    (he : (h.service.CreateMessage id text st).1.2 = some e) :
    h.CreateMessage json r st
      = (httpError e.Error
          (if e.Error = lit "chat not found" then StatusNotFound else StatusBadRequest),
          (h.service.CreateMessage id text st).2) := by
  rcases hs : h.service.CreateMessage id text st with ⟨⟨c, e1⟩, st1⟩
  rw [hs] at he
  simp only at he
  subst he
  by_cases hm : e.Error = lit "chat not found"
  · simp [ChatHandler.CreateMessage, hi, hd, hs, hm]
  · simp [ChatHandler.CreateMessage, hi, hd, hs, hm]

/-- `CreateMessage` (handler) on a service success. -/
theorem handler_CreateMessage_of_ok {σ : Type} (h : ChatHandler σ) (json : JSON)
    (r : Request) (st : σ) (id : Int) (text : GoString)
    (hi : ParseInt r.id = some id) (hd : json.DecodeText r.body = some text)
    (he : (h.service.CreateMessage id text st).1.2 = none) :
    h.CreateMessage json r st
      = (jsonResponse StatusCreated
          (json.EncodeMessage (h.service.CreateMessage id text st).1.1),
          (h.service.CreateMessage id text st).2) := by
  rcases hs : h.service.CreateMessage id text st with ⟨⟨c, e1⟩, st1⟩
  rw [hs] at he
  simp only at he
  subst he
  simp [ChatHandler.CreateMessage, hi, hd, hs]

/-- The service calls of the handler `CreateMessage`: one call, with the parsed
id and the decoded text, when both are there, and none otherwise. -/
theorem handler_CreateMessage_log {σ : Type} (svc : ChatServiceInterface σ) (json : JSON)
    (r : Request) (st : σ) (log : List ServiceCall) :
    ((NewChatHandler svc.traced).CreateMessage json r (st, log)).2.2 =
      match ParseInt r.id, json.DecodeText r.body with
      | some id, some text => log ++ [ServiceCall.CreateMessage id text]
      | _, _ => log := by
  unfold ChatHandler.CreateMessage
  simp only [NewChatHandler, ChatServiceInterface.traced]
  cases ParseInt r.id with
  | none => rfl
  | some id =>
    cases json.DecodeText r.body with
    | none => rfl
    | some text =>
      simp only
      rcases hs : svc.CreateMessage id text st with ⟨⟨c, _ | e⟩, st1⟩
      · rfl
      · simp only
        split <;> rfl

/-- The service calls of the handler `GetChat`: one call, with the parsed id
and the limit of the query, when the id is a number. -/
theorem handler_GetChat_log {σ : Type} (svc : ChatServiceInterface σ) (json : JSON)
    (r : Request) (st : σ) (log : List ServiceCall) :
    ((NewChatHandler svc.traced).GetChat json r (st, log)).2.2 =
      match ParseInt r.id with
      | some id => log ++ [ServiceCall.GetChatWithMessages id (queryLimit r.limit)]
      | none => log := by
  rw [handler_GetChat_eq]
  cases ParseInt r.id with
  | none => rfl
  | some id =>
    simp only [NewChatHandler, ChatServiceInterface.traced]
    rcases hs : svc.GetChatWithMessages id (queryLimit r.limit) st with ⟨⟨c, _ | e⟩, st1⟩ <;> rfl

/-! ## The claims on the handlers -/

set_option maxRecDepth 100000 in
/-- C16, as stated, fails: with the store unreachable the service returns the
storage failure "connection refused", and the handlers answer it with 400
(`CreateChat`, `CreateMessage`) and 404 (`GetChat`, `DeleteChat`), never with a
status from 500 to 599. -/
theorem C16_storage_failure_not_5xx_counterexample :
    (dbService.CreateChat (lit "Тестовый чат") downDB).1.2 = some storageError
    ∧ ((NewChatHandler dbService.toInterface).CreateChat testJSON
        (request "" "" "\x7b\"title\":\"Тестовый чат\"\x7d") downDB).1
        = httpError (lit "connection refused") 400
    ∧ ¬ (500 ≤ ((NewChatHandler dbService.toInterface).CreateChat testJSON
        (request "" "" "\x7b\"title\":\"Тестовый чат\"\x7d") downDB).1.Code)
    ∧ (dbService.GetChatWithMessages 1 20 downDB).1.2 = some storageError
    ∧ ((NewChatHandler dbService.toInterface).GetChat testJSON
        (request "1" "20" "") downDB).1.Code = 404
    ∧ (dbService.DeleteChat 1 downDB).1 = some storageError
    ∧ ((NewChatHandler dbService.toInterface).DeleteChat (request "1" "" "") downDB).1.Code
        = 404
    ∧ (dbService.CreateMessage 1 (lit "Привет!") downDB).1.2 = some storageError
    ∧ ((NewChatHandler dbService.toInterface).CreateMessage testJSON
        (request "1" "" "\x7b\"text\":\"Привет!\"\x7d") downDB).1.Code = 400 := by
  decide

/-- C16, amended: the handlers map service errors to 400 and 404 only, by
handler and not by kind of error. `CreateChat` answers every service error
with 400 and its text, `GetChat` with 404 and its text, `DeleteChat` with 404
"Chat not found"; `CreateMessage` answers an error whose message is "chat not
found" with 404 and every other error, the two text-validation errors among
them, with 400. So a storage failure gets the 400 or 404 of its handler, and
no response of a handler has a status other than 200, 201, 204, 400 and 404. -/
theorem C16_handlers_map_errors_to_400_or_404 {σ : Type} (h : ChatHandler σ) (json : JSON)
    (r : Request) (st : σ) :
    (∀ title e, json.DecodeTitle r.body = some title →
        (h.service.CreateChat title st).1.2 = some e →
        (h.CreateChat json r st).1 = httpError e.Error StatusBadRequest)
    ∧ (∀ id e, ParseInt r.id = some id →
        (h.service.GetChatWithMessages id (queryLimit r.limit) st).1.2 = some e →
        (h.GetChat json r st).1 = httpError e.Error StatusNotFound)
    ∧ (∀ id e, ParseInt r.id = some id → (h.service.DeleteChat id st).1 = some e →
        (h.DeleteChat r st).1 = httpError (lit "Chat not found") StatusNotFound)
    ∧ (∀ id text e, ParseInt r.id = some id → json.DecodeText r.body = some text →
        (h.service.CreateMessage id text st).1.2 = some e →
        (e.Error = lit "chat not found" →
          (h.CreateMessage json r st).1 = httpError e.Error StatusNotFound)
        ∧ (e.Error ≠ lit "chat not found" →
          (h.CreateMessage json r st).1 = httpError e.Error StatusBadRequest)
        ∧ (e = errors.New (lit "text cannot be empty")
            ∨ e = errors.New (lit "text must be 1-5000 characters") →
          (h.CreateMessage json r st).1 = httpError e.Error StatusBadRequest))
    ∧ ((h.CreateChat json r st).1.Code = 201 ∨ (h.CreateChat json r st).1.Code = 400)
    ∧ ((h.GetChat json r st).1.Code = 200 ∨ (h.GetChat json r st).1.Code = 400
        ∨ (h.GetChat json r st).1.Code = 404)
    ∧ ((h.DeleteChat r st).1.Code = 204 ∨ (h.DeleteChat r st).1.Code = 400
        ∨ (h.DeleteChat r st).1.Code = 404)
    ∧ ((h.CreateMessage json r st).1.Code = 201 ∨ (h.CreateMessage json r st).1.Code = 400
        ∨ (h.CreateMessage json r st).1.Code = 404)
    ∧ StatusBadRequest = 400 ∧ StatusNotFound = 404 := by
  have hmsg : ∀ id text e, ParseInt r.id = some id → json.DecodeText r.body = some text →
      (h.service.CreateMessage id text st).1.2 = some e →
      (e.Error = lit "chat not found" →
        (h.CreateMessage json r st).1 = httpError e.Error StatusNotFound)
      ∧ (e.Error ≠ lit "chat not found" →
        (h.CreateMessage json r st).1 = httpError e.Error StatusBadRequest) := by
    intro id text e hi hd he
    rw [handler_CreateMessage_of_error h json r st id text e hi hd he]
    constructor
    · intro hm
      simp only [hm, if_true]
    · intro hm
      simp only [hm, if_false]
  refine ⟨?_, ?_, ?_, ?_, ?_, ?_, ?_, ?_, rfl, rfl⟩
  · intro title e hd he
    rw [handler_CreateChat_of_error h json r st title e hd he]
  · intro id e hi he
    rw [handler_GetChat_of_error h json r st id e hi he]
  · intro id e hi he
    rw [handler_DeleteChat_of_error h r st id e hi he]
  · intro id text e hi hd he
    refine ⟨(hmsg id text e hi hd he).1, (hmsg id text e hi hd he).2, ?_⟩
    rintro (rfl | rfl)
    · exact (hmsg id text _ hi hd he).2 (by decide)
    · exact (hmsg id text _ hi hd he).2 (by decide)
  · cases hd : json.DecodeTitle r.body with
    | none =>
      rw [handler_CreateChat_of_bad_json h json r st hd]
      exact Or.inr rfl
    | some title =>
      cases he : (h.service.CreateChat title st).1.2 with
      | none =>
        rw [handler_CreateChat_of_ok h json r st title hd he]
        exact Or.inl rfl
      | some e =>
        rw [handler_CreateChat_of_error h json r st title e hd he]
        exact Or.inr rfl
  · cases hi : ParseInt r.id with
    | none =>
      rw [handler_GetChat_of_bad_id h json r st hi]
      exact Or.inr (Or.inl rfl)
    | some id =>
      cases he : (h.service.GetChatWithMessages id (queryLimit r.limit) st).1.2 with
      | none =>
        rw [handler_GetChat_of_ok h json r st id hi he]
        exact Or.inl rfl
      | some e =>
        rw [handler_GetChat_of_error h json r st id e hi he]
        exact Or.inr (Or.inr rfl)
  · cases hi : ParseInt r.id with
    | none =>
      rw [handler_DeleteChat_of_bad_id h r st hi]
      exact Or.inr (Or.inl rfl)
    | some id =>
      cases he : (h.service.DeleteChat id st).1 with
      | none =>
        rw [handler_DeleteChat_of_ok h r st id hi he]
        exact Or.inl rfl
      | some e =>
        rw [handler_DeleteChat_of_error h r st id e hi he]
        exact Or.inr (Or.inr rfl)
  · cases hi : ParseInt r.id with
    | none =>
      rw [handler_CreateMessage_of_bad_id h json r st hi]
      exact Or.inr (Or.inl rfl)
    | some id =>
      cases hd : json.DecodeText r.body with
      | none =>
        rw [handler_CreateMessage_of_bad_json h json r st id hi hd]
        exact Or.inr (Or.inl rfl)
      | some text =>
        cases he : (h.service.CreateMessage id text st).1.2 with
        | none =>
          rw [handler_CreateMessage_of_ok h json r st id text hi hd he]
          exact Or.inl rfl
        | some e =>
          rw [handler_CreateMessage_of_error h json r st id text e hi hd he]
          by_cases hm : e.Error = lit "chat not found"
          · simp only [hm, if_true]
            exact Or.inr (Or.inr rfl)
          · simp only [hm, if_false]
            exact Or.inr (Or.inl rfl)

set_option maxRecDepth 100000 in
/-- C16, amended, on service doubles: a storage failure is answered with 400 by
`CreateChat` and `CreateMessage` and with 404 by `GetChat` and `DeleteChat`;
"chat not found" is answered with 404 by `CreateMessage`, and "text cannot be
empty" with 400. -/
theorem C16_handlers_map_errors_witness :
    ((NewChatHandler (failingService storageError)).CreateChat testJSON
        (request "" "" "\x7b\"title\":\"Тестовый чат\"\x7d") 0).1
        = httpError (lit "connection refused") 400
    ∧ ((NewChatHandler (failingService storageError)).GetChat testJSON
        (request "1" "10" "") 0).1 = httpError (lit "connection refused") 404
    ∧ ((NewChatHandler (failingService storageError)).DeleteChat
        (request "1" "" "") 0).1 = httpError (lit "Chat not found") 404
    ∧ ((NewChatHandler (failingService storageError)).CreateMessage testJSON
        (request "1" "" "\x7b\"text\":\"Привет!\"\x7d") 0).1
        = httpError (lit "connection refused") 400
    ∧ ((NewChatHandler (failingService (errors.New (lit "chat not found")))).CreateMessage
        testJSON (request "999" "" "\x7b\"text\":\"Привет!\"\x7d") 0).1
        = httpError (lit "chat not found") 404
    ∧ ((NewChatHandler (failingService (errors.New (lit "text cannot be empty")))).CreateMessage
        testJSON (request "1" "" "\x7b\"text\":\"\"\x7d") 0).1
        = httpError (lit "text cannot be empty") 400 := by
  have hs := C16_handlers_map_errors_to_400_or_404
    (NewChatHandler (failingService storageError)) testJSON
  have hn := C16_handlers_map_errors_to_400_or_404
    (NewChatHandler (failingService (errors.New (lit "chat not found")))) testJSON
    (request "999" "" "\x7b\"text\":\"Привет!\"\x7d") 0
  have hv := C16_handlers_map_errors_to_400_or_404
    (NewChatHandler (failingService (errors.New (lit "text cannot be empty")))) testJSON
    (request "1" "" "\x7b\"text\":\"\"\x7d") 0
  exact ⟨(hs (request "" "" "\x7b\"title\":\"Тестовый чат\"\x7d") 0).1 (lit "Тестовый чат")
      storageError (by decide) rfl,
    (hs (request "1" "10" "") 0).2.1 1 storageError (by decide) rfl,
    (hs (request "1" "" "") 0).2.2.1 1 storageError (by decide) rfl,
    ((hs (request "1" "" "\x7b\"text\":\"Привет!\"\x7d") 0).2.2.2.1 1 (lit "Привет!")
      storageError (by decide) (by decide) rfl).2.1 (by decide),
    ((hn).2.2.2.1 999 (lit "Привет!") _ (by decide) (by decide) rfl).1 (by decide),
    ((hv).2.2.2.1 1 (lit "") _ (by decide) (by decide) rfl).2.2 (Or.inl rfl)⟩

/-- C17: the handler `CreateMessage`. An id that is not a number gives 400
"Invalid chat ID", and with a numeric id a body that does not decode gives 400
"Invalid JSON", in both cases without a call of the service and with the store
untouched. With a numeric id and a decodable body the service is called once,
with that id and the decoded text: a success gives 201 with the encoded
message, an error gives 404 exactly when its message is "chat not found" and
400 otherwise, in both cases with the error text (and a newline) as the body. -/
theorem C17_CreateMessage_handler_statuses {σ : Type} (h : ChatHandler σ) (json : JSON)
    (r : Request) (st : σ) :
    (ParseInt r.id = none →
      h.CreateMessage json r st = (httpError (lit "Invalid chat ID") StatusBadRequest, st)
      ∧ ((NewChatHandler h.service.traced).CreateMessage json r (st, [])).2.2 = [])
    ∧ (∀ id, ParseInt r.id = some id → json.DecodeText r.body = none →
      h.CreateMessage json r st = (httpError (lit "Invalid JSON") StatusBadRequest, st)
      ∧ ((NewChatHandler h.service.traced).CreateMessage json r (st, [])).2.2 = [])
    ∧ (∀ id text, ParseInt r.id = some id → json.DecodeText r.body = some text →
      ((NewChatHandler h.service.traced).CreateMessage json r (st, [])).2.2
          = [ServiceCall.CreateMessage id text]
      ∧ ((h.service.CreateMessage id text st).1.2 = none →
          (h.CreateMessage json r st).1
            = jsonResponse StatusCreated
                (json.EncodeMessage (h.service.CreateMessage id text st).1.1))
      ∧ (∀ e, (h.service.CreateMessage id text st).1.2 = some e →
          ((h.CreateMessage json r st).1.Code = StatusNotFound
            ↔ e.Error = lit "chat not found")
          ∧ (e.Error ≠ lit "chat not found" →
            (h.CreateMessage json r st).1.Code = StatusBadRequest)
          ∧ (h.CreateMessage json r st).1.Body = e.Error ++ lit "\n"))
    ∧ (StatusCreated = 201 ∧ StatusNotFound = 404 ∧ StatusBadRequest = 400)
    ∧ (httpError (lit "Invalid chat ID") StatusBadRequest).Body = lit "Invalid chat ID\n"
    ∧ (httpError (lit "Invalid JSON") StatusBadRequest).Body = lit "Invalid JSON\n" := by
  refine ⟨?_, ?_, ?_, ⟨rfl, rfl, rfl⟩, by decide, by decide⟩
  · intro hi
    refine ⟨handler_CreateMessage_of_bad_id h json r st hi, ?_⟩
    rw [handler_CreateMessage_log, hi]
  · intro id hi hd
    refine ⟨handler_CreateMessage_of_bad_json h json r st id hi hd, ?_⟩
    rw [handler_CreateMessage_log, hi, hd]
  · intro id text hi hd
    refine ⟨?_, ?_, ?_⟩
    · rw [handler_CreateMessage_log, hi, hd]
      rfl
    · intro he
      rw [handler_CreateMessage_of_ok h json r st id text hi hd he]
    · intro e he
      rw [handler_CreateMessage_of_error h json r st id text e hi hd he]
      by_cases hm : e.Error = lit "chat not found"
      · rw [if_pos hm]
        exact ⟨⟨fun _ => hm, fun _ => rfl⟩, fun hne => absurd hm hne, rfl⟩
      · rw [if_neg hm]
        have hne : StatusBadRequest ≠ StatusNotFound := by decide
        exact ⟨⟨fun hc => absurd hc hne, fun hc => absurd hc hm⟩, fun _ => rfl, rfl⟩

set_option maxRecDepth 100000 in
/-- C17 on the handler tests: 201 for the message created; 404 with the body
"chat not found" for the chat 999; 400 with the error text for "text must be
1-5000 characters"; 400 "Invalid chat ID" for the id `abc` and 400 "Invalid
JSON" for the body `{invalid}`, the service not being called. -/
theorem C17_CreateMessage_handler_witness :
    ((NewChatHandler (mockService (none, none) (none, none) none
        (some { ID := 1, ChatID := 1, Text := lit "Привет!", CreatedAt := mockNow },
          none))).CreateMessage testJSON
        (request "1" "" "\x7b\"text\":\"Привет!\"\x7d") 0).1.Code = 201
    ∧ ((NewChatHandler (failingService (errors.New (lit "chat not found")))).CreateMessage
        testJSON (request "999" "" "\x7b\"text\":\"Привет!\"\x7d") 0).1.Code = 404
    ∧ ((NewChatHandler (failingService (errors.New (lit "chat not found")))).CreateMessage
        testJSON (request "999" "" "\x7b\"text\":\"Привет!\"\x7d") 0).1.Body
        = lit "chat not found\n"
    ∧ ((NewChatHandler (failingService
        (errors.New (lit "text must be 1-5000 characters")))).CreateMessage
        testJSON (request "1" "" "\x7b\"text\":\"\"\x7d") 0).1.Code = 400
    ∧ ((NewChatHandler (failingService
        (errors.New (lit "text must be 1-5000 characters")))).CreateMessage
        testJSON (request "1" "" "\x7b\"text\":\"\"\x7d") 0).1.Body
        = lit "text must be 1-5000 characters\n"
    ∧ (NewChatHandler (failingService storageError)).CreateMessage testJSON
        (request "abc" "" "\x7b\"text\":\"Привет!\"\x7d") 0
        = (httpError (lit "Invalid chat ID") 400, 0)
    ∧ (NewChatHandler (failingService storageError)).CreateMessage testJSON
        (request "1" "" "\x7binvalid\x7d") 0
        = (httpError (lit "Invalid JSON") 400, 0)
    ∧ ((NewChatHandler (failingService storageError).traced).CreateMessage testJSON
        (request "1" "" "\x7binvalid\x7d") (0, [])).2.2 = [] := by
  have hok := (C17_CreateMessage_handler_statuses
    (NewChatHandler (mockService (none, none) (none, none) none
      (some { ID := 1, ChatID := 1, Text := lit "Привет!", CreatedAt := mockNow }, none)))
    testJSON (request "1" "" "\x7b\"text\":\"Привет!\"\x7d") 0).2.2.1 1 (lit "Привет!")
    (by decide) (by decide)
  have hnf := ((C17_CreateMessage_handler_statuses
    (NewChatHandler (failingService (errors.New (lit "chat not found"))))
    testJSON (request "999" "" "\x7b\"text\":\"Привет!\"\x7d") 0).2.2.1 999 (lit "Привет!")
    (by decide) (by decide)).2.2 _ rfl
  have hbad := ((C17_CreateMessage_handler_statuses
    (NewChatHandler (failingService (errors.New (lit "text must be 1-5000 characters"))))
    testJSON (request "1" "" "\x7b\"text\":\"\"\x7d") 0).2.2.1 1 (lit "")
    (by decide) (by decide)).2.2 _ rfl
  have hid := (C17_CreateMessage_handler_statuses (NewChatHandler (failingService storageError))
    testJSON (request "abc" "" "\x7b\"text\":\"Привет!\"\x7d") 0).1 (by decide)
  have hjs := (C17_CreateMessage_handler_statuses (NewChatHandler (failingService storageError))
    testJSON (request "1" "" "\x7binvalid\x7d") 0).2.1 1 (by decide) (by decide)
  refine ⟨?_, hnf.1.mpr (by decide), ?_, hbad.2.1 (by decide), ?_, hid.1, hjs.1, hjs.2⟩
  · rw [hok.2.1 rfl]
    rfl
  · rw [hnf.2.2]
    decide
  · rw [hbad.2.2]
    decide

/-- C18: the normalization `normLimit` of the limit in `GetChatWithMessages`
yields a value from 1 to 100, is idempotent, and leaves exactly the values from
1 to 100 as they are. So every `GetByChatID` call of `GetChatWithMessages`, for
any limit of the caller, has a limit from 1 to 100, also when the call comes
through the handler `GetChat`, which passes the limit of the query on to the
service as it is; and over the tables of the store a composite never has more
than 100 messages. -/
theorem C18_limit_normalization_bounds (l : Int) :
    (1 ≤ normLimit l ∧ normLimit l ≤ 100)
    ∧ normLimit (normLimit l) = normLimit l
    ∧ (normLimit l = l ↔ 1 ≤ l ∧ l ≤ 100)
    ∧ (∀ {σ : Type} (s : ChatService σ) (chatID : Int) (st : σ) (c n : Int),
        Call.messageGetByChatID c n ∈ (s.traced.GetChatWithMessages chatID l (st, [])).2.2 →
        c = chatID ∧ n = normLimit l ∧ 1 ≤ n ∧ n ≤ 100)
    ∧ (∀ {σ : Type} (svc : ChatServiceInterface σ) (json : JSON) (r : Request) (st : σ)
        (id : Int), ParseInt r.id = some id → r.limit ≠ lit "" → Atoi r.limit = some l →
        ((NewChatHandler svc.traced).GetChat json r (st, [])).2.2
          = [ServiceCall.GetChatWithMessages id l])
    ∧ (∀ {σ : Type} (s : ChatService σ) (json : JSON) (r : Request) (st : σ) (c n : Int),
        Call.messageGetByChatID c n
          ∈ ((NewChatHandler s.traced.toInterface).GetChat json r (st, [])).2.2 →
        1 ≤ n ∧ n ≤ 100)
    ∧ (∀ (chatID : Int) (db : DB) (v : ChatWithMessages),
        (dbService.GetChatWithMessages chatID l db).1.1 = some v → v.Messages.length ≤ 100) := by
  have hb : ∀ x : Int, 1 ≤ normLimit x ∧ normLimit x ≤ 100 := by
    intro x
    unfold normLimit
    simp only []
    split_ifs <;> omega
  have hlog : ∀ {σ : Type} (s : ChatService σ) (chatID x : Int) (st : σ) (log : List Call)
      (c n : Int),
      Call.messageGetByChatID c n ∈ (s.traced.GetChatWithMessages chatID x (st, log)).2.2 →
      Call.messageGetByChatID c n ∈ log ∨ (c = chatID ∧ n = normLimit x) := by
    intro σ s chatID x st log c n hmem
    rw [traced_GetChatWithMessages_log] at hmem
    split at hmem
    · simp only [List.mem_append, List.mem_cons, List.mem_singleton, Call.messageGetByChatID.injEq,
        List.not_mem_nil, or_false, false_or] at hmem
      rcases hmem with hm | hm | hm
      · exact Or.inl hm
      · exact absurd hm (by simp)
      · exact Or.inr hm
    · simp only [List.mem_append, List.mem_singleton] at hmem
      rcases hmem with hm | hm
      · exact Or.inl hm
      · exact absurd hm (by simp)
  refine ⟨hb l, ?_, ?_, ?_, ?_, ?_, ?_⟩
  · unfold normLimit
    simp only []
    split_ifs <;> omega
  · unfold normLimit
    simp only []
    constructor
    · intro h
      split_ifs at h <;> omega
    · intro h
      split_ifs <;> omega
  · intro σ s chatID st c n hmem
    rcases hlog s chatID l st [] c n hmem with hm | ⟨hc, hn⟩
    · exact absurd hm (by simp)
    · exact ⟨hc, hn, hn ▸ (hb l).1, hn ▸ (hb l).2⟩
  · intro σ svc json r st id hi hne ha
    rw [handler_GetChat_log, hi]
    simp [queryLimit, hne, ha]
  · intro σ s json r st c n hmem
    rw [handler_GetChat_eq] at hmem
    cases hi : ParseInt r.id with
    | none =>
      rw [hi] at hmem
      exact absurd hmem (by simp)
    | some id =>
      rw [hi] at hmem
      have hmem2 : Call.messageGetByChatID c n
          ∈ (s.traced.GetChatWithMessages id (queryLimit r.limit) (st, [])).2.2 := by
        simp only [NewChatHandler, ChatService.toInterface] at hmem
        rcases hs : s.traced.GetChatWithMessages id (queryLimit r.limit) (st, [])
          with ⟨⟨v, _ | e⟩, st1⟩
        · rw [hs] at hmem
          exact hmem
        · rw [hs] at hmem
          exact hmem
      rcases hlog s id (queryLimit r.limit) st [] c n hmem2 with hm | ⟨-, hn⟩
      · exact absurd hm (by simp)
      · exact ⟨hn ▸ (hb _).1, hn ▸ (hb _).2⟩
  · intro chatID db v hv
    have hok : (dbService.GetChatWithMessages chatID l db).1.2 = none := by
      rcases hr : dbService.GetChatWithMessages chatID l db with ⟨⟨w, _ | e⟩, db1⟩
      · rfl
      · rw [hr] at hv
        exfalso
        rcases hg : dbService.chatRepo.GetByID chatID db with ⟨⟨_ | c, _ | e1⟩, st1⟩
        · rw [GetChatWithMessages_of_absent dbService chatID l db st1 hg] at hr
          simp only [Prod.mk.injEq] at hr
          rw [← hr.1.1] at hv
          exact absurd hv (by simp)
        · rw [GetChatWithMessages_of_getByID_error dbService chatID l db st1 none e1 hg] at hr
          simp only [Prod.mk.injEq] at hr
          rw [← hr.1.1] at hv
          exact absurd hv (by simp)
        · rcases hm : dbService.messageRepo.GetByChatID chatID (normLimit l) st1
            with ⟨⟨ms, _ | e2⟩, st2⟩
          · rw [GetChatWithMessages_of_ok dbService chatID l db st1 st2 c ms hg hm] at hr
            simp at hr
          · rw [GetChatWithMessages_of_getByChatID_error dbService chatID l db st1 st2 c ms e2
              hg hm] at hr
            simp only [Prod.mk.injEq] at hr
            rw [← hr.1.1] at hv
            exact absurd hv (by simp)
        · rw [GetChatWithMessages_of_getByID_error dbService chatID l db st1 (some c) e1 hg]
            at hr
          simp only [Prod.mk.injEq] at hr
          rw [← hr.1.1] at hv
          exact absurd hv (by simp)
    obtain ⟨w, h1, -, h3, -, -⟩ := GetChatWithMessages_success dbService chatID l db hok
    have hw : v = w := by
      rw [hv] at h1
      exact Option.some.inj h1
    subst hw
    have h3b : (messageRepository.GetByChatID chatID (normLimit l)
        (dbService.chatRepo.GetByID chatID db).2).1 = (v.Messages, none) := h3
    have hf : (dbService.chatRepo.GetByID chatID db).2.failure = none := by
      cases hfail : (dbService.chatRepo.GetByID chatID db).2.failure with
      | none => rfl
      | some e =>
        rw [GetByChatID_of_failure chatID (normLimit l) _ e hfail] at h3b
        simp at h3b
    rw [GetByChatID_of_healthy chatID (normLimit l) _ hf,
      gormLimit_of_pos _ _ (hb l).1] at h3b
    have hlen : v.Messages.length ≤ (normLimit l).toNat := by
      rw [← (Prod.mk.inj h3b).1, List.length_take]
      exact Nat.min_le_left _ _
    have := (hb l).2
    omega

set_option maxRecDepth 100000 in
/-- C18 on the store with three messages: the limits -5 and 0 become 20, 1000
becomes 100 and 10 stays 10; the handler `GetChat` passes the limit "-5" of
the query on to the service as -5, and the repository is asked for 20
messages; with the limit "1000" it is asked for 100. -/
theorem C18_limit_normalization_witness :
    normLimit (-5) = 20 ∧ normLimit 0 = 20 ∧ normLimit 1000 = 100 ∧ normLimit 10 = 10
    ∧ ((NewChatHandler dbService.toInterface.traced).GetChat testJSON
        (request "1" "-5" "") (dbWithThree, [])).2.2 = [ServiceCall.GetChatWithMessages 1 (-5)]
    ∧ ((NewChatHandler dbService.traced.toInterface).GetChat testJSON
        (request "1" "-5" "") (dbWithThree, [])).2.2
        = [Call.chatGetByID 1, Call.messageGetByChatID 1 20]
    ∧ ((NewChatHandler dbService.traced.toInterface).GetChat testJSON
        (request "1" "1000" "") (dbWithThree, [])).2.2
        = [Call.chatGetByID 1, Call.messageGetByChatID 1 100]
    ∧ ((1 : Int) ≤ 20 ∧ (20 : Int) ≤ 100) := by
  have h10 := (C18_limit_normalization_bounds 10).2.2.1.mpr ⟨by decide, by decide⟩
  have hpass := (C18_limit_normalization_bounds (-5)).2.2.2.2.1 dbService.toInterface testJSON
    (request "1" "-5" "") dbWithThree 1 (by decide) (by decide) (by decide)
  have hlog : ((NewChatHandler dbService.traced.toInterface).GetChat testJSON
      (request "1" "-5" "") (dbWithThree, [])).2.2
      = [Call.chatGetByID 1, Call.messageGetByChatID 1 20] := by decide
  have hbound := (C18_limit_normalization_bounds 0).2.2.2.2.2.1 dbService testJSON
    (request "1" "-5" "") dbWithThree 1 20 (by rw [hlog]; simp)
  exact ⟨by decide, by decide, by decide, h10, hpass, hlog, by decide, hbound⟩

end ChatGolang
